import Mathlib

/-!
Verification of the tool-calling orchestration core of the Foundry-Local
quiz demo repository.

The development shallowly embeds the Python sources:
  quiz_slm_fixed.py    (functools text parsing, Agent, QuizCoordinator)
  quiz_slm_working.py  (structured tool calls, fallback coordinator)
  compare_modes.py     (Mode A vs Mode B classification)

JSON values are modelled by the inductive type Json.  Numbers are modelled
as integers: no fractional numeric literal occurs in any tool payload of
this repository, and the embedded parser still accepts (and truncates)
fractional syntax so that acceptance and rejection of inputs match the
Python json module on the inputs that occur here.  Python exceptions are
modelled by the PyErr type together with Except; a returned Except.error
models an exception that propagated out of the translated function.
Wall-clock reads (datetime.now) are modelled by a stream of formatted
timestamp strings carried in the state, one entry consumed per read.
File persistence under quiz_data/ is modelled by association lists keyed
by quiz id.  Console printing is not modelled (presentational output).
-/

inductive Json where
  | null : Json
  | bool : Bool → Json
  | num : Int → Json
  | str : String → Json
  | arr : List Json → Json
  | obj : List (String × Json) → Json
  deriving Inhabited

mutual

def Json.beq : Json → Json → Bool
  | .null, .null => true
  | .bool a, .bool b => a == b
  | .num a, .num b => a == b
  | .str a, .str b => a == b
  | .arr xs, .arr ys => Json.beqL xs ys
  | .obj xs, .obj ys => Json.beqO xs ys
  | _, _ => false

def Json.beqL : List Json → List Json → Bool
  | [], [] => true
  | x :: xs, y :: ys => Json.beq x y && Json.beqL xs ys
  | _, _ => false

def Json.beqO : List (String × Json) → List (String × Json) → Bool
  | [], [] => true
  | (k, v) :: xs, (l, w) :: ys => k == l && Json.beq v w && Json.beqO xs ys
  | _, _ => false

end

mutual

theorem Json.beq_refl : ∀ a : Json, Json.beq a a = true
  | .null => rfl
  | .bool a => by simp [Json.beq]
  | .num a => by simp [Json.beq]
  | .str a => by simp [Json.beq]
  | .arr xs => by simp [Json.beq, Json.beqL_refl xs]
  | .obj xs => by simp [Json.beq, Json.beqO_refl xs]

theorem Json.beqL_refl : ∀ xs : List Json, Json.beqL xs xs = true
  | [] => rfl
  | x :: xs => by simp [Json.beqL, Json.beq_refl x, Json.beqL_refl xs]

theorem Json.beqO_refl : ∀ xs : List (String × Json), Json.beqO xs xs = true
  | [] => rfl
  | (k, v) :: xs => by simp [Json.beqO, Json.beq_refl v, Json.beqO_refl xs]

end

mutual

theorem Json.beq_eq : ∀ a b : Json, Json.beq a b = true → a = b
  | .null, .null, _ => rfl
  | .bool a, .bool b, h => by simpa [Json.beq] using h
  | .num a, .num b, h => by simpa [Json.beq] using h
  | .str a, .str b, h => by simpa [Json.beq] using h
  | .arr xs, .arr ys, h => by
      simp only [Json.beq] at h
      exact congrArg Json.arr (Json.beqL_eq xs ys h)
  | .obj xs, .obj ys, h => by
      simp only [Json.beq] at h
      exact congrArg Json.obj (Json.beqO_eq xs ys h)
  | .null, .bool _, h => by simp [Json.beq] at h
  | .null, .num _, h => by simp [Json.beq] at h
  | .null, .str _, h => by simp [Json.beq] at h
  | .null, .arr _, h => by simp [Json.beq] at h
  | .null, .obj _, h => by simp [Json.beq] at h
  | .bool _, .null, h => by simp [Json.beq] at h
  | .bool _, .num _, h => by simp [Json.beq] at h
  | .bool _, .str _, h => by simp [Json.beq] at h
  | .bool _, .arr _, h => by simp [Json.beq] at h
  | .bool _, .obj _, h => by simp [Json.beq] at h
  | .num _, .null, h => by simp [Json.beq] at h
  | .num _, .bool _, h => by simp [Json.beq] at h
  | .num _, .str _, h => by simp [Json.beq] at h
  | .num _, .arr _, h => by simp [Json.beq] at h
  | .num _, .obj _, h => by simp [Json.beq] at h
  | .str _, .null, h => by simp [Json.beq] at h
  | .str _, .bool _, h => by simp [Json.beq] at h
  | .str _, .num _, h => by simp [Json.beq] at h
  | .str _, .arr _, h => by simp [Json.beq] at h
  | .str _, .obj _, h => by simp [Json.beq] at h
  | .arr _, .null, h => by simp [Json.beq] at h
  | .arr _, .bool _, h => by simp [Json.beq] at h
  | .arr _, .num _, h => by simp [Json.beq] at h
  | .arr _, .str _, h => by simp [Json.beq] at h
  | .arr _, .obj _, h => by simp [Json.beq] at h
  | .obj _, .null, h => by simp [Json.beq] at h
  | .obj _, .bool _, h => by simp [Json.beq] at h
  | .obj _, .num _, h => by simp [Json.beq] at h
  | .obj _, .str _, h => by simp [Json.beq] at h
  | .obj _, .arr _, h => by simp [Json.beq] at h

theorem Json.beqL_eq : ∀ xs ys : List Json, Json.beqL xs ys = true → xs = ys
  | [], [], _ => rfl
  | [], _ :: _, h => by simp [Json.beqL] at h
  | _ :: _, [], h => by simp [Json.beqL] at h
  | x :: xs, y :: ys, h => by
      simp only [Json.beqL, Bool.and_eq_true] at h
      rw [Json.beq_eq x y h.1, Json.beqL_eq xs ys h.2]

theorem Json.beqO_eq : ∀ xs ys : List (String × Json), Json.beqO xs ys = true → xs = ys
  | [], [], _ => rfl
  | [], _ :: _, h => by simp [Json.beqO] at h
  | _ :: _, [], h => by simp [Json.beqO] at h
  | (k, v) :: xs, (l, w) :: ys, h => by
      simp only [Json.beqO, Bool.and_eq_true] at h
      rw [eq_of_beq h.1.1, Json.beq_eq v w h.1.2, Json.beqO_eq xs ys h.2]

end

instance : DecidableEq Json := fun a b =>
  if h : Json.beq a b = true then isTrue (Json.beq_eq a b h)
  else isFalse (fun e => h (e ▸ Json.beq_refl a))

/-- Association-list lookup, first match wins.  Every Json object built by
the embedding has pairwise distinct keys (the parser inserts members the
way a Python dict does), so this is Python dict lookup. -/
def getA {α : Type} : List (String × α) → String → Option α
  | [], _ => none
  | (k, v) :: rest, key => if k = key then some v else getA rest key

/-- Python dict assignment: overwrite the binding in place if the key
exists, otherwise append a new binding at the end (insertion order). -/
def setKeyA {α : Type} : List (String × α) → String → α → List (String × α)
  | [], k, v => [(k, v)]
  | (k₁, v₁) :: rest, k, v =>
      if k₁ = k then (k, v) :: rest else (k₁, v₁) :: setKeyA rest k v

/-- Lookup of a string key inside a Json object; none for other shapes. -/
def Json.getKey : Json → String → Option Json
  | .obj kvs, k => getA kvs k
  | _, _ => none

/-- Python exceptions that the translated code can raise. -/
inductive PyErr where
  | typeError (msg : String) : PyErr
  | attributeError (msg : String) : PyErr
  | keyError (msg : String) : PyErr
  | indexError (msg : String) : PyErr
  deriving DecidableEq, Inhabited

/-- Python truthiness of a JSON value. -/
def pyTruthy : Json → Bool
  | .null => false
  | .bool b => b
  | .num n => n != 0
  | .str s => s ≠ ""
  | .arr xs => xs ≠ []
  | .obj kvs => kvs ≠ []

/-- Python string conversion as used by f-strings in the sources.  The
exact repr of containers is never observed by any claim. -/
def pyStrOf : Json → String
  | .null => "None"
  | .bool true => "True"
  | .bool false => "False"
  | .num n => toString n
  | .str s => s
  | .arr _ => "<list>"
  | .obj _ => "<dict>"

/-- Prefix test on character lists. -/
def startsWithL : List Char → List Char → Bool
  | [], _ => true
  | _ :: _, [] => false
  | p :: ps, c :: cs => p == c && startsWithL ps cs

/-- Substring (contiguous) test on character lists. -/
def containsL (pat : List Char) : List Char → Bool
  | [] => startsWithL pat []
  | c :: cs => startsWithL pat (c :: cs) || containsL pat cs

/-- Python membership test `k in j` for a string literal k, as in
`"questions" in quiz_data`: dict key membership, substring test on
strings, element membership on lists, TypeError otherwise. -/
def pyIn (k : String) : Json → Except PyErr Bool
  | .obj kvs => .ok (getA kvs k).isSome
  | .str s => .ok (containsL k.toList s.toList)
  | .arr xs => .ok (xs.any (fun x => Json.beq (Json.str k) x))
  | _ => .error (.typeError "argument is not iterable")

/-- Python subscript `j[k]` with a string key: dict lookup raising
KeyError when absent, TypeError on strings, lists and scalars. -/
def pySubscriptStr (j : Json) (k : String) : Except PyErr Json :=
  match j with
  | .obj kvs =>
      match getA kvs k with
      | some v => .ok v
      | none => .error (.keyError k)
  | .str _ => .error (.typeError "string indices must be integers")
  | .arr _ => .error (.typeError "list indices must be integers")
  | _ => .error (.typeError "object is not subscriptable")

/-- Python subscript `j[i]` with a non-negative integer index. -/
def pyGetIdx (j : Json) (i : Nat) : Except PyErr Json :=
  match j with
  | .arr xs =>
      match xs.get? i with
      | some v => .ok v
      | none => .error (.indexError "list index out of range")
  | .str s =>
      match s.toList.get? i with
      | some c => .ok (.str (String.singleton c))
      | none => .error (.indexError "string index out of range")
  | _ => .error (.typeError "object is not subscriptable")

/-- Python `len(j)`. -/
def pyLen : Json → Except PyErr Nat
  | .arr xs => .ok xs.length
  | .str s => .ok s.toList.length
  | .obj kvs => .ok kvs.length
  | _ => .error (.typeError "object has no len")

/-- Python `j.get(k, default)` on dicts; AttributeError otherwise. -/
def pyDictGet (j : Json) (k : String) (dflt : Json) : Except PyErr Json :=
  match j with
  | .obj kvs => .ok ((getA kvs k).getD dflt)
  | _ => .error (.attributeError "object has no attribute get")

/-- Python iteration `for x in j`: list elements, characters of a string,
keys of a dict; TypeError otherwise. -/
def pyIterList : Json → Except PyErr (List Json)
  | .arr xs => .ok xs
  | .str s => .ok (s.toList.map (fun c => Json.str (String.singleton c)))
  | .obj kvs => .ok (kvs.map (fun kv => Json.str kv.1))
  | _ => .error (.typeError "object is not iterable")

/-- Python str.upper, restricted to ASCII case mapping (every string the
repository compares this way is ASCII). -/
def pyUpper (s : String) : String := String.mk (s.toList.map Char.toUpper)

/-- Four lowercase hex digits, as json.dumps emits in escape sequences. -/
def hex4 (n : Nat) : String :=
  let d := fun (m : Nat) => (Nat.digitChar (m % 16))
  String.mk [d (n / 4096), d (n / 256), d (n / 16), d n]

/-- Escape one character the way json.dumps (ensure_ascii) does. -/
def escChar (c : Char) : String :=
  if c = '"' then "\\\""
  else if c = '\\' then "\\\\"
  else if c = '\n' then "\\n"
  else if c = '\r' then "\\r"
  else if c = '\t' then "\\t"
  else if c = '\x08' then "\\b"
  else if c = '\x0c' then "\\f"
  else if c.toNat < 0x20 ∨ 0x7f ≤ c.toNat then "\\u" ++ hex4 c.toNat
  else String.singleton c

/-- Serialize a string literal the way json.dumps does. -/
def dumpsStr (s : String) : String :=
  "\"" ++ String.join (s.toList.map escChar) ++ "\""

mutual

/-- json.dumps with the default separators, as used when tool results are
fed back into the conversation. -/
def dumps : Json → String
  | .null => "null"
  | .bool true => "true"
  | .bool false => "false"
  | .num n => toString n
  | .str s => dumpsStr s
  | .arr xs => "[" ++ dumpsL xs ++ "]"
  | .obj kvs => "\x7b" ++ dumpsO kvs ++ "\x7d"

def dumpsL : List Json → String
  | [] => ""
  | [x] => dumps x
  | x :: y :: rest => dumps x ++ ", " ++ dumpsL (y :: rest)

def dumpsO : List (String × Json) → String
  | [] => ""
  | [(k, v)] => dumpsStr k ++ ": " ++ dumps v
  | (k, v) :: p :: rest => dumpsStr k ++ ": " ++ dumps v ++ ", " ++ dumpsO (p :: rest)

end

/-- JSON whitespace accepted between tokens by json.loads. -/
def isJWs (c : Char) : Bool := c == ' ' || c == '\t' || c == '\n' || c == '\r'

/-- Drop leading JSON whitespace. -/
def skipJWs (cs : List Char) : List Char := cs.dropWhile isJWs

/-- Value of one hex digit, if any. -/
def hexDigitVal (c : Char) : Option Nat :=
  if '0' ≤ c ∧ c ≤ '9' then some (c.toNat - '0'.toNat)
  else if 'a' ≤ c ∧ c ≤ 'f' then some (c.toNat - 'a'.toNat + 10)
  else if 'A' ≤ c ∧ c ≤ 'F' then some (c.toNat - 'A'.toNat + 10)
  else none

/-- Body of a JSON string literal, after the opening quote.  Returns the
decoded characters and the remaining input after the closing quote.
Strict mode: unescaped control characters are rejected, as json.loads
does.  Lone surrogates from u-escapes are not modelled (they never occur
in the tool traffic of this repository). -/
def parseStrChars : List Char → Option (List Char × List Char)
  | [] => none
  | c :: rest =>
    if c = '"' then some ([], rest)
    else if c = '\\' then
      match rest with
      | [] => none
      | e :: rest₂ =>
        if e = '"' ∨ e = '\\' ∨ e = '/' then
          (parseStrChars rest₂).map (fun p => (e :: p.1, p.2))
        else if e = 'b' then (parseStrChars rest₂).map (fun p => ('\x08' :: p.1, p.2))
        else if e = 'f' then (parseStrChars rest₂).map (fun p => ('\x0c' :: p.1, p.2))
        else if e = 'n' then (parseStrChars rest₂).map (fun p => ('\n' :: p.1, p.2))
        else if e = 'r' then (parseStrChars rest₂).map (fun p => ('\r' :: p.1, p.2))
        else if e = 't' then (parseStrChars rest₂).map (fun p => ('\t' :: p.1, p.2))
        else if e = 'u' then
          match rest₂ with
          | h₁ :: h₂ :: h₃ :: h₄ :: rest₃ =>
            match hexDigitVal h₁, hexDigitVal h₂, hexDigitVal h₃, hexDigitVal h₄ with
            | some a, some b, some cc, some d =>
              (parseStrChars rest₃).map
                (fun p => (Char.ofNat (a * 4096 + b * 256 + cc * 16 + d) :: p.1, p.2))
            | _, _, _, _ => none
          | _ => none
        else none
    else if c.toNat < 0x20 then none
    else (parseStrChars rest).map (fun p => (c :: p.1, p.2))

/-- Longest leading run of decimal digits. -/
def spanDigits (cs : List Char) : List Char × List Char :=
  (cs.takeWhile Char.isDigit, cs.dropWhile Char.isDigit)

/-- Numeric value of a digit run. -/
def digitsToNat (ds : List Char) : Nat :=
  ds.foldl (fun acc c => 10 * acc + (c.toNat - '0'.toNat)) 0

/-- Unsigned integer part of a JSON number: 0, or a nonzero digit
followed by digits. -/
def parseIntPartNoSign (cs : List Char) : Option (Int × List Char) :=
  match cs with
  | '0' :: rest => some (0, rest)
  | c :: _ =>
    if c.isDigit then
      let (ds, rest) := spanDigits cs
      some (Int.ofNat (digitsToNat ds), rest)
    else none
  | [] => none

/-- Integer part of a JSON number: optional minus, then the unsigned
part. -/
def parseIntPart (cs : List Char) : Option (Int × List Char) :=
  match cs with
  | '-' :: rest =>
    (parseIntPartNoSign rest).map (fun p => (-p.1, p.2))
  | _ => parseIntPartNoSign cs

/-- Optional fractional part: a dot must be followed by at least one
digit.  The digits are consumed but their value is discarded (numbers are
modelled as integers; no fractional literal occurs in this repository). -/
def skipFracPart (cs : List Char) : Option (List Char) :=
  match cs with
  | '.' :: rest =>
    let (ds, rest₂) := spanDigits rest
    if ds = [] then none else some rest₂
  | _ => some cs

/-- Optional exponent part, consumed and discarded like the fraction. -/
def skipExpPart (cs : List Char) : Option (List Char) :=
  match cs with
  | c :: rest =>
    if c = 'e' ∨ c = 'E' then
      match rest with
      | s :: rest₂ =>
        if s = '+' ∨ s = '-' then
          let (ds, rest₃) := spanDigits rest₂
          if ds = [] then none else some rest₃
        else
          let (ds, rest₃) := spanDigits rest
          if ds = [] then none else some rest₃
      | [] => none
    else some cs
  | [] => some cs

/-- A JSON number token. -/
def parseNum (cs : List Char) : Option (Json × List Char) := do
  let (n, cs₁) ← parseIntPart cs
  let cs₂ ← skipFracPart cs₁
  let cs₃ ← skipExpPart cs₂
  some (Json.num n, cs₃)

/-- Members collected left to right are inserted the way a Python dict is
built: a duplicate key keeps its first position and takes the last value. -/
def objFromMembers (ms : List (String × Json)) : List (String × Json) :=
  ms.foldl (fun acc kv => setKeyA acc kv.1 kv.2) []

mutual

/-- One JSON value, fuel-bounded recursive descent following the json
grammar of the json module (NaN and Infinity constants are not modelled; they never
occur in the tool traffic of this repository). -/
def parseVal : Nat → List Char → Option (Json × List Char)
  | 0, _ => none
  | fuel + 1, cs =>
    match skipJWs cs with
    | [] => none
    | c :: rest =>
      if c = '"' then (parseStrChars rest).map (fun p => (Json.str (String.mk p.1), p.2))
      else if c = '[' then
        match skipJWs rest with
        | ']' :: rest₂ => some (Json.arr [], rest₂)
        | cs₂ => (parseElems fuel cs₂).map (fun p => (Json.arr p.1, p.2))
      else if c = '\x7b' then
        match skipJWs rest with
        | '\x7d' :: rest₂ => some (Json.obj [], rest₂)
        | cs₂ => (parseMembers fuel cs₂).map (fun p => (Json.obj (objFromMembers p.1), p.2))
      else if startsWithL "true".toList (c :: rest) then some (Json.bool true, rest.drop 3)
      else if startsWithL "false".toList (c :: rest) then some (Json.bool false, rest.drop 4)
      else if startsWithL "null".toList (c :: rest) then some (Json.null, rest.drop 3)
      else parseNum (c :: rest)

/-- Comma-separated values up to the closing bracket. -/
def parseElems : Nat → List Char → Option (List Json × List Char)
  | 0, _ => none
  | fuel + 1, cs => do
    let (v, cs₁) ← parseVal fuel cs
    match skipJWs cs₁ with
    | ',' :: cs₂ => do
      let (vs, cs₃) ← parseElems fuel cs₂
      some (v :: vs, cs₃)
    | ']' :: cs₂ => some ([v], cs₂)
    | _ => none

/-- Comma-separated string-keyed members up to the closing brace. -/
def parseMembers : Nat → List Char → Option (List (String × Json) × List Char)
  | 0, _ => none
  | fuel + 1, cs =>
    match skipJWs cs with
    | '"' :: cs₁ => do
      let (kcs, cs₂) ← parseStrChars cs₁
      match skipJWs cs₂ with
      | ':' :: cs₃ => do
        let (v, cs₄) ← parseVal fuel cs₃
        match skipJWs cs₄ with
        | ',' :: cs₅ => do
          let (ms, cs₆) ← parseMembers fuel cs₅
          some ((String.mk kcs, v) :: ms, cs₆)
        | '\x7d' :: cs₅ => some ([(String.mk kcs, v)], cs₅)
        | _ => none
      | _ => none
    | _ => none

end

/-- json.loads: parse one value and require only whitespace to remain. -/
def json_loads (s : String) : Option Json :=
  match parseVal (2 * s.toList.length + 2) s.toList with
  | some (v, rest) => if skipJWs rest = [] then some v else none
  | none => none

/-- Whitespace class of the re module in ASCII mode, for the pattern
fragment between the marker and the opening bracket. -/
def isPySpace (c : Char) : Bool :=
  c == ' ' || c == '\t' || c == '\n' || c == '\r' || c == '\x0b' || c == '\x0c'

/-- Everything before the last closing bracket of the input, or none when
the input holds no closing bracket.  This is how the greedy group of
re.search with the DOTALL flag captures in extract_functools. -/
def beforeLastClose : List Char → Option (List Char)
  | [] => none
  | c :: rest =>
    match beforeLastClose rest with
    | some tail => some (c :: tail)
    | none => if c = ']' then some [] else none

/-- Everything before the first closing bracket of the input, or none.
This is how the lazy group of test_mode_b_from_response captures. -/
def beforeFirstClose : List Char → Option (List Char)
  | [] => none
  | c :: rest =>
    if c = ']' then some []
    else (beforeFirstClose rest).map (fun t => c :: t)

/-- Attempt of the greedy pattern anchored at the head of the input. -/
def matchFunctoolsAt (cs : List Char) : Option (List Char) :=
  if cs.take 9 = "functools".toList then
    match (cs.drop 9).dropWhile isPySpace with
    | '[' :: tail => beforeLastClose tail
    | _ => none
  else none

/-- re.search of the greedy pattern: first start position at which the
whole pattern matches, returning the captured group. -/
def reSearchFunctools : List Char → Option (List Char)
  | [] => none
  | c :: rest =>
    match matchFunctoolsAt (c :: rest) with
    | some g => some g
    | none => reSearchFunctools rest

/-- Attempt of the lazy pattern anchored at the head of the input. -/
def matchFunctoolsLazyAt (cs : List Char) : Option (List Char) :=
  if cs.take 9 = "functools".toList then
    match (cs.drop 9).dropWhile isPySpace with
    | '[' :: tail => beforeFirstClose tail
    | _ => none
  else none

/-- re.search of the lazy pattern used by compare_modes. -/
def reSearchFunctoolsLazy : List Char → Option (List Char)
  | [] => none
  | c :: rest =>
    match matchFunctoolsLazyAt (c :: rest) with
    | some g => some g
    | none => reSearchFunctoolsLazy rest

/-- extract_functools from quiz_slm_fixed.py: find the functools marker,
rebuild a JSON array from the bracketed capture and parse it; any of
no marker, a JSON parse failure, or an empty parsed list yields none. -/
def extract_functools (response : String) : Option (List Json) :=
  if response = "" then none
  else
    match reSearchFunctools response.toList with
    | none => none
    | some group =>
      match json_loads (String.mk ('[' :: group ++ [']'])) with
      | some (Json.arr calls) => if calls = [] then none else some calls
      | _ => none

/-- Structured (Mode A) tool call as the completion endpoint exposes it:
an identifier, a function name and a JSON-encoded argument string. -/
structure SToolCall where
  id : String
  fname : String
  argStr : String
  deriving DecidableEq, Inhabited

/-- One endpoint response: nullable plain-text content and an optional
structured tool-call list. -/
structure ChatMsg where
  content : Option String
  tool_calls : Option (List SToolCall)
  deriving DecidableEq, Inhabited

/-- Outcome of the Mode B text scan of test_mode_b_from_response in
compare_modes.py. -/
inductive ModeB where
  | detected (calls : List Json) : ModeB
  | parseFailure : ModeB
  | notDetected : ModeB
  deriving DecidableEq, Inhabited

/-- test_mode_b_from_response from compare_modes.py (classification part;
the demo also prints and executes the detected calls, which is
presentational and not modelled). -/
def test_mode_b_from_response (content : String) : ModeB :=
  match reSearchFunctoolsLazy content.toList with
  | none => .notDetected
  | some group =>
    match json_loads (String.mk ('[' :: group ++ [']'])) with
    | some (Json.arr calls) => .detected calls
    | some _ => .detected []
    | none => .parseFailure

/-- Outcome of the Mode A test in compare_modes.py: either the structured
branch is taken, or the function falls back to the Mode B text scan of
the content; content None under fallback raises a TypeError inside
re.search. -/
inductive ModeA where
  | modeA (calls : List SToolCall) : ModeA
  | fallbackB (r : ModeB) : ModeA
  | contentTypeError : ModeA
  deriving DecidableEq, Inhabited

/-- Classification skeleton of test_mode_a from compare_modes.py: a
truthy message.tool_calls takes the structured branch and the content is
never scanned; otherwise the content is handed to the Mode B scanner. -/
def test_mode_a (m : ChatMsg) : ModeA :=
  match m.tool_calls with
  | some (c :: cs) => .modeA (c :: cs)
  | _ =>
    match m.content with
    | some text => .fallbackB (test_mode_b_from_response text)
    | none => .contentTypeError

/-- Process state threaded through tool execution: the quiz_data/ JSON
files keyed by quiz id, the markdown report files keyed by file name, and
the stream of formatted wall-clock readings still to be observed (one
entry is consumed per datetime.now call; consecutive readings may
coincide because the format has one-second granularity). -/
structure PyState where
  store : List (String × Json)
  reports : List (String × String)
  clock : List String
  deriving DecidableEq, Inhabited

/-- Fallback timestamp; only reached when the modelled clock stream is
exhausted, which no theorem below allows. -/
def clockFallback : String := "00000000_000000"

/-- create_quiz from quiz_slm_fixed.py (identical in quiz_slm_working.py):
split the source text into sentences, keep the trimmed ones longer than
ten characters, and emit one fixed-shape question per index. -/
def create_quiz (source_text num_questions : Json) : Except PyErr Json := do
  let src ← match source_text with
    | .str s => Except.ok s
    | _ => Except.error (.attributeError "object has no attribute split")
  let sentences := ((src.splitOn ".").map String.trim).filter (fun s => s.length > 10)
  let n ← match num_questions with
    | .num m => Except.ok m
    | .bool b => Except.ok (if b then (1 : Int) else 0)
    | _ => Except.error (.typeError "unsupported operand types for min")
  let count := (min n (Int.ofNat (max 1 sentences.length))).toNat
  let questions := (List.range count).map (fun i =>
    let topic :=
      if sentences = [] then "the content"
      else (sentences.getD (i % sentences.length) "").take 50
    Json.obj
      [("id", .num (Int.ofNat i + 1)),
       ("question", .str ("What is the significance of: \x27" ++ topic ++ "...\x27?")),
       ("options", .arr [.str "A) Key concept", .str "B) Not mentioned", .str "C) Minor detail"]),
       ("correct_answer", .str "A")])
  Except.ok (Json.obj
    [("questions", .arr questions), ("count", .num (Int.ofNat questions.length))])

/-- save_quiz: validate the payload, derive the id from the current
formatted timestamp and write one JSON document under that id.  The
partially written file left behind when quiz_data["questions"] raises
after the file was opened is not modelled (no claim reaches it). -/
def save_quiz (quiz_data : Json) (st : PyState) : Except PyErr Json × PyState :=
  if ¬ pyTruthy quiz_data then
    (.ok (.obj [("error", .str "Invalid quiz_data")]), st)
  else
    match pyIn "questions" quiz_data with
    | .error e => (.error e, st)
    | .ok false => (.ok (.obj [("error", .str "Invalid quiz_data")]), st)
    | .ok true =>
      let ts := st.clock.headD clockFallback
      let st₁ : PyState := { st with clock := st.clock.tail }
      let quiz_id := "quiz_" ++ ts
      match pySubscriptStr quiz_data "questions" with
      | .error e => (.error e, st₁)
      | .ok qs =>
        let record := Json.obj [("quiz_id", .str quiz_id), ("questions", qs)]
        (.ok (.obj
            [("quiz_id", .str quiz_id),
             ("path", .str ("quiz_data/" ++ quiz_id ++ ".json"))]),
         { st₁ with store := setKeyA st₁.store quiz_id record })

/-- load_quiz: read the JSON document for the id, or an error payload
when the file does not exist. -/
def load_quiz (quiz_id : Json) (st : PyState) : Except PyErr Json × PyState :=
  let key := pyStrOf quiz_id
  match getA st.store key with
  | none => (.ok (.obj [("error", .str ("Quiz not found: " ++ key))]), st)
  | some data => (.ok data, st)

/-- One grading step of the loop body in grade_responses, at absolute
question index i: the user answer is the first character of the
uppercased response when one was supplied, the synthetic "X" otherwise;
the correct answer is the first element of the correct_answer field. -/
def gradeStep (responses : Json) (i : Nat) (q : Json) :
    Except PyErr (String × Json × Bool) :=
  match pyLen responses with
  | .error e => .error e
  | .ok lenR =>
    let ua : Except PyErr String :=
      if i < lenR then
        match pyGetIdx responses i with
        | .error e => .error e
        | .ok (.str s) =>
          match (pyUpper s).toList.head? with
          | some c => .ok (String.singleton c)
          | none => .error (.indexError "string index out of range")
        | .ok _ => .error (.attributeError "object has no attribute upper")
      else .ok "X"
    match ua with
    | .error e => .error e
    | .ok user_ans =>
      match pySubscriptStr q "correct_answer" with
      | .error e => .error e
      | .ok ca =>
        match pyGetIdx ca 0 with
        | .error e => .error e
        | .ok correct => .ok (user_ans, correct, Json.beq (.str user_ans) correct)

/-- The grading loop: score and per-question detail list, processing the
questions in order from absolute index i. -/
def gradeFold (responses : Json) : Nat → List Json → Except PyErr (Nat × List Json)
  | _, [] => .ok (0, [])
  | i, q :: qs =>
    match gradeStep responses i q with
    | .error e => .error e
    | .ok (user_ans, correct, isc) =>
      match gradeFold responses (i + 1) qs with
      | .error e => .error e
      | .ok (score, details) =>
        let d := Json.obj
          [("q", .num (Int.ofNat i + 1)), ("user", .str user_ans),
           ("correct", correct), ("result", .str (if isc then "✓" else "✗"))]
        .ok ((if isc then score + 1 else score), d :: details)

/-- grade_responses: load the quiz, pass a stored error payload through,
otherwise grade every question against the response list. -/
def grade_responses (quiz_id responses : Json) (st : PyState) :
    Except PyErr Json × PyState :=
  match load_quiz quiz_id st with
  | (.error e, st₁) => (.error e, st₁)
  | (.ok quiz, st₁) =>
    match pyIn "error" quiz with
    | .error e => (.error e, st₁)
    | .ok true => (.ok quiz, st₁)
    | .ok false =>
      match pyDictGet quiz "questions" (.arr []) with
      | .error e => (.error e, st₁)
      | .ok questions =>
        match pyIterList questions with
        | .error e => (.error e, st₁)
        | .ok qlist =>
          match gradeFold responses 0 qlist with
          | .error e => (.error e, st₁)
          | .ok (score, details) =>
            (.ok (.obj
                [("quiz_id", quiz_id), ("score", .num (Int.ofNat score)),
                 ("total", .num (Int.ofNat qlist.length)),
                 ("details", .arr details)]),
             st₁)

/-- One markdown table row of the report, subscripting the detail entry
exactly in source order. -/
def reportRow (d : Json) : Except PyErr String := do
  let q ← pySubscriptStr d "q"
  let u ← pySubscriptStr d "user"
  let c ← pySubscriptStr d "correct"
  let r ← pySubscriptStr d "result"
  Except.ok ("| " ++ pyStrOf q ++ " | " ++ pyStrOf u ++ " | " ++ pyStrOf c
    ++ " | " ++ pyStrOf r ++ " |\n")

/-- All table rows, in order. -/
def reportRows : List Json → Except PyErr String
  | [] => .ok ""
  | d :: ds => do
    let row ← reportRow d
    let rest ← reportRows ds
    .ok (row ++ rest)

/-- create_report: validate, build the markdown content (the score
subscript is guarded by the membership test but the total subscript is
not), then write the report file. -/
def create_report (quiz_id grading_results : Json) (st : PyState) :
    Except PyErr Json × PyState :=
  if ¬ pyTruthy grading_results then
    (.ok (.obj [("error", .str "Invalid grading results")]), st)
  else
    match pyIn "score" grading_results with
    | .error e => (.error e, st)
    | .ok false => (.ok (.obj [("error", .str "Invalid grading results")]), st)
    | .ok true =>
      match pySubscriptStr grading_results "score" with
      | .error e => (.error e, st)
      | .ok scoreV =>
        match pySubscriptStr grading_results "total" with
        | .error e => (.error e, st)
        | .ok totalV =>
          match pyDictGet grading_results "details" (.arr []) with
          | .error e => (.error e, st)
          | .ok detailsV =>
            match pyIterList detailsV with
            | .error e => (.error e, st)
            | .ok ds =>
              match reportRows ds with
              | .error e => (.error e, st)
              | .ok rows =>
                let fname := pyStrOf quiz_id ++ "_report.md"
                let content := "# Quiz Report: " ++ pyStrOf quiz_id
                  ++ "\n**Score:** " ++ pyStrOf scoreV ++ "/" ++ pyStrOf totalV
                  ++ "\n\n## Details\n| Q | Your Answer | Correct | Result |\n|---|-------------|---------|--------|\n"
                  ++ rows
                (.ok (.obj [("path", .str ("quiz_data/" ++ fname))]),
                 { st with reports := setKeyA st.reports fname content })

/-- The tool registry keys of the TOOLS dict. -/
def TOOLS : List String :=
  ["create_quiz", "save_quiz", "load_quiz", "grade_responses", "create_report"]

/-- Binding of a keyword-argument mapping against a parameter list, as
Python performs for f(**arguments) when f declares exactly these
parameters and no defaults: every parameter must be supplied, no key may
be left over, and the mapping must be a dict at all. -/
def bindArgs (params : List String) (args : Json) : Except PyErr (List Json) :=
  match args with
  | .obj kvs =>
    if params.all (fun p => (getA kvs p).isSome) then
      if (kvs.map Prod.fst).all (fun k => params.contains k) then
        .ok (params.map (fun p => (getA kvs p).getD .null))
      else .error (.typeError "got an unexpected keyword argument")
    else .error (.typeError "missing a required argument")
  | _ => .error (.typeError "argument after ** must be a mapping")

/-- Dispatch TOOLS[name](**arguments) for a registered name. -/
def invoke_tool (name : String) (args : Json) (st : PyState) :
    Except PyErr Json × PyState :=
  if name = "create_quiz" then
    match bindArgs ["source_text", "num_questions"] args with
    | .error e => (.error e, st)
    | .ok [a, b] => (create_quiz a b, st)
    | .ok _ => (.error (.typeError "bad binding arity"), st)
  else if name = "save_quiz" then
    match bindArgs ["quiz_data"] args with
    | .error e => (.error e, st)
    | .ok [a] => save_quiz a st
    | .ok _ => (.error (.typeError "bad binding arity"), st)
  else if name = "load_quiz" then
    match bindArgs ["quiz_id"] args with
    | .error e => (.error e, st)
    | .ok [a] => load_quiz a st
    | .ok _ => (.error (.typeError "bad binding arity"), st)
  else if name = "grade_responses" then
    match bindArgs ["quiz_id", "responses"] args with
    | .error e => (.error e, st)
    | .ok [a, b] => grade_responses a b st
    | .ok _ => (.error (.typeError "bad binding arity"), st)
  else if name = "create_report" then
    match bindArgs ["quiz_id", "grading_results"] args with
    | .error e => (.error e, st)
    | .ok [a, b] => create_report a b st
    | .ok _ => (.error (.typeError "bad binding arity"), st)
  else (.error (.typeError "tool not registered"), st)

/-- execute_tool from quiz_slm_fixed.py.  The membership test raises
TypeError on unhashable names (lists, dicts); an unknown hashable name
yields the error payload with the name; for a known name the call is
wrapped in a handler that catches TypeError only, so every other fault
raised while the tool runs propagates. -/
def execute_tool (name : Json) (arguments : Json) (st : PyState) :
    Except PyErr Json × PyState :=
  match name with
  | .arr _ => (.error (.typeError "unhashable type: list"), st)
  | .obj _ => (.error (.typeError "unhashable type: dict"), st)
  | .str s =>
    if TOOLS.contains s then
      match invoke_tool s arguments st with
      | (.error (.typeError m), st₁) =>
        (.ok (.obj [("error", .str ("Invalid arguments for " ++ s ++ ": " ++ m))]), st₁)
      | r => r
    else (.ok (.obj [("error", .str ("Unknown tool: " ++ s))]), st)
  | other => (.ok (.obj [("error", .str ("Unknown tool: " ++ pyStrOf other))]), st)

/-- The AgentContext: a Python dict from string keys to JSON values. -/
abbrev Ctx := List (String × Json)

/-- One conversation turn. -/
structure Msg where
  role : String
  content : String
  deriving DecidableEq, Inhabited

/-- The observation turn appended after a tool execution in
quiz_slm_fixed.py: a user-role turn that carries the tool name and the
serialized result. -/
def obsMsg (tool_name result : Json) : Msg :=
  ⟨"user", "Tool \x27" ++ pyStrOf tool_name ++ "\x27 returned: " ++ dumps result⟩

/-- The side-channel context projection of Agent.run: a fixed,
tool-name-keyed promotion of specific result fields into the context. -/
def updateContext (tool_name result : Json) (ctx : Ctx) : Except PyErr Ctx :=
  if Json.beq tool_name (.str "create_quiz") then
    match pyIn "questions" result with
    | .error e => .error e
    | .ok true => .ok (setKeyA ctx "quiz_data" result)
    | .ok false => .ok ctx
  else if Json.beq tool_name (.str "save_quiz") then
    match pyIn "quiz_id" result with
    | .error e => .error e
    | .ok true =>
      match pySubscriptStr result "quiz_id" with
      | .error e => .error e
      | .ok v => .ok (setKeyA ctx "quiz_id" v)
    | .ok false => .ok ctx
  else if Json.beq tool_name (.str "grade_responses") then
    match pyIn "score" result with
    | .error e => .error e
    | .ok true => .ok (setKeyA ctx "grading_results" result)
    | .ok false => .ok ctx
  else if Json.beq tool_name (.str "create_report") then
    match pyIn "path" result with
    | .error e => .error e
    | .ok true =>
      match pySubscriptStr result "path" with
      | .error e => .error e
      | .ok v => .ok (setKeyA ctx "report_path" v)
    | .ok false => .ok ctx
  else .ok ctx

/-- Processing of one extracted call inside the loop body of Agent.run:
read name and arguments off the call object, execute, promote context
fields, and produce the observation turn.  An error is an exception that
escapes Agent.run (and the whole coordinator, which has no handler). -/
def processCall (call : Json) (ctx : Ctx) (st : PyState) :
    Except PyErr (Msg × Ctx × PyState) :=
  match pyDictGet call "name" .null with
  | .error e => .error e
  | .ok tool_name =>
    match pyDictGet call "arguments" (.obj []) with
    | .error e => .error e
    | .ok arguments =>
      match execute_tool tool_name arguments st with
      | (.error e, _) => .error e
      | (.ok result, st₁) =>
        match updateContext tool_name result ctx with
        | .error e => .error e
        | .ok ctx₁ => .ok (obsMsg tool_name result, ctx₁, st₁)

/-- Sequential processing of a batch of calls, in the order received,
threading context and state and collecting one observation per call. -/
def processCalls : List Json → Ctx → PyState →
    Except PyErr (List Msg × Ctx × PyState)
  | [], ctx, st => .ok ([], ctx, st)
  | c :: cs, ctx, st =>
    match processCall c ctx st with
    | .error e => .error e
    | .ok (m, ctx₁, st₁) =>
      match processCalls cs ctx₁ st₁ with
      | .error e => .error e
      | .ok (ms, ctx₂, st₂) => .ok (m :: ms, ctx₂, st₂)

/-- Result of one iteration of the loop body of Agent.run. -/
inductive IterStep where
  | done (ctx : Ctx) (msgs : List Msg) : IterStep
  | continued (msgs : List Msg) (ctx : Ctx) (st : PyState) : IterStep
  | failed (e : PyErr) : IterStep
  deriving DecidableEq, Inhabited

/-- One iteration of Agent.run on the received content: no extracted
calls records the content as the summary and ends the loop; otherwise the
assistant turn is appended, every call is executed in order and one
observation turn per call is appended after the assistant turn. -/
def agentIterate (content : String) (msgs : List Msg) (ctx : Ctx) (st : PyState) :
    IterStep :=
  match extract_functools content with
  | none => .done (setKeyA ctx "summary" (.str content)) msgs
  | some calls =>
    let msgs₁ := msgs ++ [⟨"assistant", content⟩]
    match processCalls calls ctx st with
    | .error e => .failed e
    | .ok (obs, ctx₁, st₁) => .continued (msgs₁ ++ obs) ctx₁ st₁

/-- The bounded loop of Agent.run.  The endpoint is modelled as the
stream of response contents, indexed by how many completion round trips
were already made; fuel is the number of loop iterations still allowed.
The returned Nat is the total number of completion round trips made. -/
def agentLoop (responses : Nat → String) :
    Nat → Nat → List Msg → Ctx → PyState →
    (Except PyErr (Ctx × List Msg × PyState)) × Nat
  | 0, k, msgs, ctx, st => (.ok (ctx, msgs, st), k)
  | fuel + 1, k, msgs, ctx, st =>
    let content := responses k
    match agentIterate content msgs ctx st with
    | .done ctx₁ msgs₁ => (.ok (ctx₁, msgs₁, st), k + 1)
    | .failed e => (.error e, k + 1)
    | .continued msgs₁ ctx₁ st₁ => agentLoop responses fuel (k + 1) msgs₁ ctx₁ st₁

/-- The iteration ceiling hardcoded in Agent.run of quiz_slm_fixed.py. -/
def max_iterations : Nat := 6

/-- Agent.run from quiz_slm_fixed.py: seed the conversation with one user
turn and drive at most max_iterations completion round trips. -/
def Agent.run (responses : Nat → String) (task : String) (context : Ctx)
    (st : PyState) : (Except PyErr (Ctx × List Msg × PyState)) × Nat :=
  agentLoop responses max_iterations 0 [⟨"user", task⟩] context st

/-- Observable outcome of one coordinator run: whether the run was
aborted before the grading phase, whether the grading agent was invoked,
the context it was invoked with, and the final context. -/
structure CoordOutcome where
  aborted : Bool
  graderInvoked : Bool
  graderCtx : Ctx
  finalCtx : Ctx
  deriving DecidableEq, Inhabited

/-- QuizCoordinator.run from quiz_slm_fixed.py, with the two agent runs
abstracted as oracles: the producer phase has already yielded its
context, and the grading agent is an arbitrary function of its seed
context.  A falsy quiz_id aborts the run before the quiz is presented
and before the grading agent is constructed a task.  The interactive
quiz presentation and answer prompt are presentational I/O; the answers
the user typed enter as the responses parameter. -/
def coordinator_fixed_run (producerCtx : Ctx) (grader : Ctx → Ctx)
    (responses : List String) : CoordOutcome :=
  let quiz_id := (getA producerCtx "quiz_id").getD .null
  if ¬ pyTruthy quiz_id then ⟨true, false, [], producerCtx⟩
  else
    let gctx : Ctx :=
      [("quiz_id", quiz_id), ("responses", .arr (responses.map Json.str))]
    ⟨false, true, gctx, grader gctx⟩

/-- QuizCoordinator.run from quiz_slm_working.py: same shape, except that
a falsy quiz_id first triggers a direct fallback that calls create_quiz
and save_quiz without any agent, and the run is aborted only when the
fallback also fails to yield an id.  The error branches of the fallback
match are unreachable for an actual string and integer input and are
mapped to an aborted outcome. -/
def coordinator_working_run (producerCtx : Ctx) (st : PyState)
    (source_text : String) (num_questions : Int) (grader : Ctx → Ctx)
    (responses : List String) : CoordOutcome × PyState :=
  let quiz_id₀ := (getA producerCtx "quiz_id").getD .null
  if pyTruthy quiz_id₀ then
    let gctx : Ctx :=
      [("quiz_id", quiz_id₀), ("responses", .arr (responses.map Json.str))]
    (⟨false, true, gctx, grader gctx⟩, st)
  else
    match create_quiz (.str source_text) (.num num_questions) with
    | .error _ => (⟨true, false, [], producerCtx⟩, st)
    | .ok quiz_result =>
      match save_quiz quiz_result st with
      | (.error _, st₁) => (⟨true, false, [], producerCtx⟩, st₁)
      | (.ok save_result, st₁) =>
        let qid := match pyDictGet save_result "quiz_id" .null with
          | .ok v => v
          | .error _ => .null
        let ctx₁ := setKeyA (setKeyA producerCtx "quiz_data" quiz_result) "quiz_id" qid
        if ¬ pyTruthy qid then (⟨true, false, [], ctx₁⟩, st₁)
        else
          let gctx : Ctx :=
            [("quiz_id", qid), ("responses", .arr (responses.map Json.str))]
          (⟨false, true, gctx, grader gctx⟩, st₁)

instance instDecEqExcept {ε α : Type} [DecidableEq ε] [DecidableEq α] :
    DecidableEq (Except ε α) := fun a b =>
  match a, b with
  | .ok x, .ok y => if h : x = y then isTrue (by rw [h]) else isFalse (by simp [h])
  | .error x, .error y => if h : x = y then isTrue (by rw [h]) else isFalse (by simp [h])
  | .ok _, .error _ => isFalse (by simp)
  | .error _, .ok _ => isFalse (by simp)

/-- First character of a string as a one-character string (empty input
gives the empty string; the grading lemmas only apply it to non-empty
strings). -/
def firstCharStr (s : String) : String :=
  match s.toList.head? with
  | some c => String.singleton c
  | none => ""

/-- Underlying string of a Json string, defaulting to empty. -/
def strOfJ : Json → String
  | .str s => s
  | _ => ""

/-- Specification of the user answer grade_responses derives at absolute
question index i: first character of the uppercased supplied response, or
the synthetic "X" when the response list is too short. -/
def userAnsAt (rs : List Json) (i : Nat) : String :=
  if i < rs.length then firstCharStr (pyUpper (strOfJ (rs.getD i .null))) else "X"

/-- Specification of the correct-answer value grade_responses compares
against: first element of the correct_answer field. -/
def correctAt (q : Json) : Json :=
  match q.getKey "correct_answer" with
  | some (.str c) => .str (firstCharStr c)
  | _ => .null

/-- Whether the question at absolute index i is graded correct. -/
def matchAt (rs : List Json) (i : Nat) (q : Json) : Bool :=
  Json.beq (.str (userAnsAt rs i)) (correctAt q)

/-- The detail entry grade_responses emits for the question at absolute
index i. -/
def detailAt (rs : List Json) (i : Nat) (q : Json) : Json :=
  .obj [("q", .num (Int.ofNat i + 1)), ("user", .str (userAnsAt rs i)),
        ("correct", correctAt q),
        ("result", .str (if matchAt rs i q then "✓" else "✗"))]

/-- The detail list grade_responses emits for the questions from absolute
index i on. -/
def detF (rs : List Json) : Nat → List Json → List Json
  | _, [] => []
  | i, q :: qs => detailAt rs i q :: detF rs (i + 1) qs

/-- The score grade_responses accumulates for the questions from absolute
index i on. -/
def scoreF (rs : List Json) : Nat → List Json → Nat
  | _, [] => 0
  | i, q :: qs =>
    if matchAt rs i q then scoreF rs (i + 1) qs + 1 else scoreF rs (i + 1) qs

/-- A supplied response on which grade_responses cannot fault: a
non-empty string. -/
def isGoodResp : Json → Bool
  | .str s => s ≠ ""
  | _ => false

/-- A stored question on which grade_responses cannot fault: an object
whose correct_answer is a non-empty string. -/
def isGoodQ : Json → Bool
  | .obj kv =>
    match getA kv "correct_answer" with
    | some (.str c) => c ≠ ""
    | _ => false
  | _ => false

/-- Sequential batch execution as section 4.3 of the specification words
it: the calls are executed one by one in the order received, each
execution threading the state left by the previous one, each producing
exactly one observation turn, with the observations listed in the same
order as the calls. -/
inductive SeqExec : List Json → Ctx → PyState → List Msg → Ctx → PyState → Prop where
  | nil (ctx : Ctx) (st : PyState) : SeqExec [] ctx st [] ctx st
  | cons (c : Json) (cs : List Json) (ctx : Ctx) (st : PyState)
      (nm ag result : Json) (ctx₁ : Ctx) (st₁ : PyState)
      (ms : List Msg) (ctx₂ : Ctx) (st₂ : PyState)
      (hnm : pyDictGet c "name" .null = .ok nm)
      (hag : pyDictGet c "arguments" (.obj []) = .ok ag)
      (hex : execute_tool nm ag st = (.ok result, st₁))
      (hup : updateContext nm result ctx = .ok ctx₁)
      (hrest : SeqExec cs ctx₁ st₁ ms ctx₂ st₂) :
      SeqExec (c :: cs) ctx st (obsMsg nm result :: ms) ctx₂ st₂

/-- A state with empty stores and no pending clock readings. -/
def emptySt : PyState := ⟨[], [], []⟩

/-- A response whose only tool call is well-formed, names a registered
tool, and whose execution raises an uncaught KeyError inside the tool
body (create_report subscripts grading_results["total"] without having
checked the key). -/
def faultContent : String :=
  "functools[\x7b\"name\": \"create_report\", \"arguments\": \x7b\"quiz_id\": \"q\", \"grading_results\": \x7b\"score\": 1\x7d\x7d\x7d]"

/-- A response whose only tool call names an unregistered tool, so its
execution returns an error payload and never faults. -/
def unknownToolContent : String :=
  "functools[\x7b\"name\": \"nope\", \"arguments\": \x7b\x7d\x7d]"

/-- The observation turn produced by executing the unknown-tool call. -/
def unknownToolObs : Msg :=
  obsMsg (.str "nope") (.obj [("error", .str "Unknown tool: nope")])

/-- The conversation Agent.run accumulates when every response is the
unknown-tool call and the loop runs to its iteration ceiling. -/
def sixRoundMsgs : List Msg :=
  ⟨"user", "task"⟩ ::
    (List.replicate max_iterations [⟨"assistant", unknownToolContent⟩, unknownToolObs]).flatten

/-- A response carrying a batch of two tool calls. -/
def twoCallContent : String :=
  "functools[\x7b\"name\": \"nope1\", \"arguments\": \x7b\x7d\x7d, \x7b\"name\": \"nope2\", \"arguments\": \x7b\x7d\x7d]"

/-- The two calls extracted from twoCallContent, in listed order. -/
def twoCalls : List Json :=
  [.obj [("name", .str "nope1"), ("arguments", .obj [])],
   .obj [("name", .str "nope2"), ("arguments", .obj [])]]

/-- The observations produced by executing twoCalls, in the same order. -/
def twoCallObs : List Msg :=
  [obsMsg (.str "nope1") (.obj [("error", .str "Unknown tool: nope1")]),
   obsMsg (.str "nope2") (.obj [("error", .str "Unknown tool: nope2")])]

/-- A response carrying a batch of two tool calls whose first call is the
create_report invocation that raises an uncaught KeyError (see C2), so
the batch aborts before any observation turn is produced. -/
def faultBatchContent : String :=
  "functools[\x7b\"name\": \"create_report\", \"arguments\": \x7b\"quiz_id\": \"q\", \"grading_results\": \x7b\"score\": 1\x7d\x7d\x7d, \x7b\"name\": \"nope\", \"arguments\": \x7b\x7d\x7d]"

/-- The two calls extracted from faultBatchContent, in listed order. -/
def faultBatchCalls : List Json :=
  [.obj [("name", .str "create_report"),
         ("arguments", .obj [("quiz_id", .str "q"),
                             ("grading_results", .obj [("score", .num 1)])])],
   .obj [("name", .str "nope"), ("arguments", .obj [])]]

theorem getA_setKeyA_self {α : Type} (l : List (String × α)) (k : String) (v : α) :
    getA (setKeyA l k v) k = some v := by
  induction l with
  | nil => simp [setKeyA, getA]
  | cons p rest ih =>
    obtain ⟨k₁, v₁⟩ := p
    by_cases h : k₁ = k
    · simp [setKeyA, h, getA]
    · simp [setKeyA, h, getA, ih]

theorem getA_setKeyA_ne {α : Type} (l : List (String × α)) (k k' : String) (v : α)
    (h : k' ≠ k) : getA (setKeyA l k v) k' = getA l k' := by
  induction l with
  | nil => simp [setKeyA, getA, Ne.symm h]
  | cons p rest ih =>
    obtain ⟨k₁, v₁⟩ := p
    by_cases h₁ : k₁ = k
    · subst h₁
      simp [setKeyA, getA, Ne.symm h]
    · by_cases h₂ : k₁ = k'
      · subst h₂
        simp [setKeyA, h₁, getA, h]
      · simp [setKeyA, h₁, getA, h₂, ih]

/-- C1, claim as stated, refuted: a response that carries the functools
marker with a malformed bracketed payload produces exactly the same
interpreter output (none) as a response with no marker at all, so the
caller cannot distinguish the two cases. -/
theorem c1_counterexample :
    reSearchFunctools "functools[\x7boops]".toList = some "\x7boops".toList ∧
    json_loads "[\x7boops]" = none ∧
    extract_functools "functools[\x7boops]" = none ∧
    extract_functools "All done, no tools needed." = none ∧
    extract_functools "functools[\x7boops]"
      = extract_functools "All done, no tools needed." := by
  refine ⟨by decide, by decide, by decide, by decide, by decide⟩

/-- C1, amended: extract_functools collapses the malformed-payload case
(and the empty-list case) into the same none output it returns when no
marker is found, so no caller of the interpreter can distinguish a failed
tool-use attempt from no attempt. -/
theorem c1_amended (s : String) :
    (reSearchFunctools s.toList = none → extract_functools s = none) ∧
    (∀ g, reSearchFunctools s.toList = some g →
      json_loads (String.mk ('[' :: g ++ [']'])) = none →
      extract_functools s = none) := by
  constructor
  · intro h
    by_cases he : s = ""
    · simp [extract_functools, he]
    · unfold extract_functools
      rw [if_neg he, h]
  · intro g hg hp
    by_cases he : s = ""
    · simp [extract_functools, he]
    · unfold extract_functools
      rw [if_neg he, hg]
      simp only [hp]

/-- C1, witness for the amended theorem at concrete inputs. -/
theorem c1_amended_witness :
    extract_functools "hello" = none ∧ extract_functools "functools[\x7bbad]" = none :=
  ⟨(c1_amended "hello").1 (by decide),
   (c1_amended "functools[\x7bbad]").2 "\x7bbad".toList (by decide) (by decide)⟩

/-- C2, claim as stated, refuted: create_report is a registered tool, and
executing it with a grading_results payload that has a score but no total
raises a KeyError that propagates past the executor boundary instead of
being converted to an error-shaped result. -/
theorem c2_counterexample :
    TOOLS.contains "create_report" = true ∧
    (execute_tool (.str "create_report")
        (.obj [("quiz_id", .str "q1"), ("grading_results", .obj [("score", .num 1)])])
        emptySt).1
      = .error (.keyError "total") := by
  refine ⟨by decide, by decide⟩

/-- C2, amended: an unknown string tool name yields an error payload
containing the name without raising, and a TypeError raised by the
binding of the arguments or inside the tool body is caught and converted
to an error payload; faults of any other kind propagate (as the
counterexample shows). -/
theorem c2_amended (s : String) (args : Json) (st : PyState) :
    (TOOLS.contains s = false →
      execute_tool (.str s) args st
        = (.ok (.obj [("error", .str ("Unknown tool: " ++ s))]), st)) ∧
    (∀ m st₁, TOOLS.contains s = true →
      invoke_tool s args st = (.error (.typeError m), st₁) →
      execute_tool (.str s) args st
        = (.ok (.obj [("error", .str ("Invalid arguments for " ++ s ++ ": " ++ m))]), st₁)) := by
  constructor
  · intro h
    simp only [execute_tool]
    rw [if_neg (by rw [h]; exact Bool.false_ne_true)]
  · intro m st₁ hc hi
    simp only [execute_tool]
    rw [if_pos hc, hi]

/-- C2, witness for the amended theorem: an unknown tool and a known tool
invoked with missing arguments. -/
theorem c2_amended_witness :
    execute_tool (.str "nope") (.obj []) emptySt
      = (.ok (.obj [("error", .str "Unknown tool: nope")]), emptySt) ∧
    execute_tool (.str "create_quiz") (.obj []) emptySt
      = (.ok (.obj [("error",
          .str "Invalid arguments for create_quiz: missing a required argument")]), emptySt) :=
  ⟨(c2_amended "nope" (.obj []) emptySt).1 (by decide),
   (c2_amended "create_quiz" (.obj []) emptySt).2 "missing a required argument" emptySt
     (by decide) (by decide)⟩

/-- C3: a response whose structured tool-call list is populated is
classified as Mode A carrying exactly those calls, independently of what
the text content holds, so the embedded-text marker scan is never
consulted for it. -/
theorem c3_mode_a_precedence (content content₂ : Option String)
    (calls : List SToolCall) (h : calls ≠ []) :
    test_mode_a ⟨content, some calls⟩ = ModeA.modeA calls ∧
    test_mode_a ⟨content, some calls⟩ = test_mode_a ⟨content₂, some calls⟩ := by
  cases calls with
  | nil => exact absurd rfl h
  | cons c cs => exact ⟨rfl, rfl⟩

/-- C3, witness: the content even contains a functools marker, and the
structured call still wins. -/
theorem c3_mode_a_precedence_witness :
    ([⟨"call_1", "get_weather", "\x7b\"location\": \"Paris\"\x7d"⟩] : List SToolCall) ≠ [] ∧
    test_mode_a ⟨some "functools[\x7b\"name\": \"x\"\x7d]",
        some [⟨"call_1", "get_weather", "\x7b\"location\": \"Paris\"\x7d"⟩]⟩
      = ModeA.modeA [⟨"call_1", "get_weather", "\x7b\"location\": \"Paris\"\x7d"⟩] :=
  ⟨by decide,
   (c3_mode_a_precedence (some "functools[\x7b\"name\": \"x\"\x7d]") none
     [⟨"call_1", "get_weather", "\x7b\"location\": \"Paris\"\x7d"⟩] (by decide)).1⟩

/-- C4, claim as stated, refuted: when the producer phase supplies no
quiz identifier, the working coordinator does not abort before phase two;
its direct fallback saves a quiz itself and the grading phase is then
invoked. -/
theorem c4_counterexample :
    getA ([] : Ctx) "quiz_id" = none ∧
    (coordinator_working_run [] ⟨[], [], ["20250101_120000"]⟩
        "This sentence is long enough to count." 1 (fun c => c) ["A"]).1.aborted = false ∧
    (coordinator_working_run [] ⟨[], [], ["20250101_120000"]⟩
        "This sentence is long enough to count." 1 (fun c => c) ["A"]).1.graderInvoked = true := by
  refine ⟨by decide, by decide, by decide⟩

/-- C4, amended: the fixed coordinator aborts before phase two whenever
the producer context lacks a truthy quiz identifier; the working
coordinator may instead recover through its direct fallback, but in
either variant the grading agent is only ever invoked with a context
that carries a truthy quiz identifier. -/
theorem c4_amended (pctx : Ctx) (g : Ctx → Ctx) (rs : List String) (st : PyState)
    (src : String) (n : Int) :
    (pyTruthy ((getA pctx "quiz_id").getD .null) = false →
      (coordinator_fixed_run pctx g rs).aborted = true ∧
      (coordinator_fixed_run pctx g rs).graderInvoked = false) ∧
    (∀ out st₁, coordinator_working_run pctx st src n g rs = (out, st₁) →
      out.graderInvoked = true →
      pyTruthy ((getA out.graderCtx "quiz_id").getD .null) = true) := by
  constructor
  · intro h
    unfold coordinator_fixed_run
    rw [if_pos (by simp [h])]
    exact ⟨rfl, rfl⟩
  · intro out st₁ heq h
    simp only [coordinator_working_run] at heq
    split at heq
    · rename_i h₀
      injection heq with h₁ h₂
      subst h₁
      simpa [getA] using h₀
    · rename_i h₀
      split at heq
      · injection heq with h₁ h₂
        subst h₁
        simp at h
      · rename_i quiz_result hc
        split at heq
        · injection heq with h₁ h₂
          subst h₁
          simp at h
        · rename_i save_result st₂ hs
          split at heq
          · injection heq with h₁ h₂
            subst h₁
            simp at h
          · rename_i hq
            injection heq with h₁ h₂
            subst h₁
            simp only [CoordOutcome.graderCtx]
            simp only [getA, if_pos rfl, Option.getD_some]
            exact Decidable.not_not.mp hq

/-- C4, witness for the amended theorem: the fixed coordinator aborts on
an empty producer context, and a working-coordinator run that invoked the
grader carried a truthy identifier in the grader context. -/
theorem c4_amended_witness :
    ((coordinator_fixed_run [] (fun c => c) ["A"]).aborted = true ∧
      (coordinator_fixed_run [] (fun c => c) ["A"]).graderInvoked = false) ∧
    pyTruthy ((getA ([("quiz_id", Json.str "qz"), ("responses", Json.arr [Json.str "A"])] : Ctx)
        "quiz_id").getD .null) = true :=
  ⟨(c4_amended [] (fun c => c) ["A"] emptySt "" 0).1 (by decide),
   (c4_amended [("quiz_id", Json.str "qz")] (fun c => c) ["A"] emptySt "" 0).2
     ⟨false, true, [("quiz_id", Json.str "qz"), ("responses", Json.arr [Json.str "A"])],
      [("quiz_id", Json.str "qz"), ("responses", Json.arr [Json.str "A"])]⟩
     emptySt (by decide) (by decide)⟩

theorem load_quiz_state_eq (q : Json) (st : PyState) : (load_quiz q st).2 = st := by
  simp only [load_quiz]
  split <;> rfl

theorem grade_responses_state_eq (q r : Json) (st : PyState) :
    (grade_responses q r st).2 = st := by
  unfold grade_responses
  rcases hl : load_quiz q st with ⟨res, st₁⟩
  have hst : st₁ = st := by
    have h := load_quiz_state_eq q st
    rw [hl] at h
    exact h
  subst hst
  cases res with
  | error e => rfl
  | ok quiz =>
    repeat' split
    all_goals simp_all

/-- C9: grading performs no write, so invoking grade_responses twice with
the same identifier and response list, the second time on the state the
first call left behind, returns exactly the same result pair (same score,
same total, identical detail list) and leaves the state untouched. -/
theorem c9_grade_idempotent (quiz_id responses : Json) (st : PyState) :
    (grade_responses quiz_id responses st).2 = st ∧
    grade_responses quiz_id responses ((grade_responses quiz_id responses st).2)
      = grade_responses quiz_id responses st :=
  ⟨grade_responses_state_eq quiz_id responses st,
   by rw [grade_responses_state_eq quiz_id responses st]⟩

theorem string_append_left_cancel (a b c : String) (h : a ++ b = a ++ c) : b = c := by
  cases a with | mk la =>
  cases b with | mk lb =>
  cases c with | mk lc =>
  have h₂ : la ++ lb = la ++ lc := congrArg String.data h
  exact congrArg String.mk (List.append_cancel_left h₂)

theorem save_quiz_ok_characterize (qd : Json) (st : PyState) (r : Json)
    (st₂ : PyState) (idv : String)
    (hs : save_quiz qd st = (.ok r, st₂)) (hk : r.getKey "quiz_id" = some (.str idv)) :
    idv = "quiz_" ++ st.clock.headD clockFallback ∧
    ∃ qs, st₂ = ⟨setKeyA st.store idv (.obj [("quiz_id", .str idv), ("questions", qs)]),
                 st.reports, st.clock.tail⟩ := by
  simp only [save_quiz] at hs
  split at hs
  · injection hs with h₁ h₂
    injection h₁ with h₁
    subst h₁
    simp [Json.getKey, getA] at hk
  · split at hs
    · exact absurd (congrArg Prod.fst hs) (by simp)
    · injection hs with h₁ h₂
      injection h₁ with h₁
      subst h₁
      simp [Json.getKey, getA] at hk
    · split at hs
      · exact absurd (congrArg Prod.fst hs) (by simp)
      · rename_i qs hsub
        injection hs with h₁ h₂
        injection h₁ with h₁
        subst h₁
        have hk' : some (Json.str ("quiz_" ++ st.clock.headD clockFallback))
            = some (Json.str idv) := by
          rw [← hk]
          simp [Json.getKey, getA]
        injection hk' with hk'
        injection hk' with hk'
        subst hk'
        exact ⟨rfl, qs, h₂.symm⟩

/-- C7, claim as stated, refuted: two successful save_quiz invocations
whose wall-clock readings fall in the same second are assigned the same
quiz identifier, and the second save silently rebinds that identifier to
a different question list even though save_quiz takes no identifier to
target. -/
theorem c7_counterexample :
    (save_quiz (.obj [("questions", .arr [.str "Q1"])])
        ⟨[], [], ["20250101_120000", "20250101_120000"]⟩).1
      = .ok (.obj [("quiz_id", .str "quiz_20250101_120000"),
                   ("path", .str "quiz_data/quiz_20250101_120000.json")]) ∧
    (save_quiz (.obj [("questions", .arr [.str "Q2"])])
        (save_quiz (.obj [("questions", .arr [.str "Q1"])])
          ⟨[], [], ["20250101_120000", "20250101_120000"]⟩).2).1
      = .ok (.obj [("quiz_id", .str "quiz_20250101_120000"),
                   ("path", .str "quiz_data/quiz_20250101_120000.json")]) ∧
    getA ((save_quiz (.obj [("questions", .arr [.str "Q2"])])
        (save_quiz (.obj [("questions", .arr [.str "Q1"])])
          ⟨[], [], ["20250101_120000", "20250101_120000"]⟩).2).2).store
        "quiz_20250101_120000"
      = some (.obj [("quiz_id", .str "quiz_20250101_120000"),
                    ("questions", .arr [.str "Q2"])]) := by
  refine ⟨by decide, by decide, by decide⟩

/-- C7, amended: identifiers assigned by two successful saves are
distinct provided the two invocations observe distinct formatted clock
readings (the format has one-second granularity, so saves within one
second collide, as the counterexample shows); and a save only writes its
own identifier, leaving every other stored binding unchanged. -/
theorem c7_amended (st : PyState) (qd₁ qd₂ r₁ r₂ : Json) (st₁ st₂ : PyState)
    (id₁ id₂ : String)
    (hs₁ : save_quiz qd₁ st = (.ok r₁, st₁))
    (hk₁ : r₁.getKey "quiz_id" = some (.str id₁))
    (hs₂ : save_quiz qd₂ st₁ = (.ok r₂, st₂))
    (hk₂ : r₂.getKey "quiz_id" = some (.str id₂))
    (hts : st.clock.headD clockFallback ≠ st₁.clock.headD clockFallback) :
    id₁ ≠ id₂ ∧ ∀ k, k ≠ id₂ → getA st₂.store k = getA st₁.store k := by
  obtain ⟨hid₁, qs₁, hst₁⟩ := save_quiz_ok_characterize qd₁ st r₁ st₁ id₁ hs₁ hk₁
  obtain ⟨hid₂, qs₂, hst₂⟩ := save_quiz_ok_characterize qd₂ st₁ r₂ st₂ id₂ hs₂ hk₂
  constructor
  · intro he
    apply hts
    have hq : ("quiz_" ++ st.clock.headD clockFallback)
        = "quiz_" ++ st₁.clock.headD clockFallback := by
      rw [← hid₁, he, hid₂]
    exact string_append_left_cancel _ _ _ hq
  · intro k hk
    rw [hst₂]
    exact getA_setKeyA_ne _ _ _ _ hk

/-- C7, witness for the amended theorem: two saves at distinct clock
readings get distinct identifiers and the second save leaves the first
binding unchanged. -/
theorem c7_amended_witness :
    ("quiz_20250101_120000" : String) ≠ "quiz_20250101_120001" ∧
    ∀ k, k ≠ "quiz_20250101_120001" →
      getA ([("quiz_20250101_120000",
              Json.obj [("quiz_id", .str "quiz_20250101_120000"),
                        ("questions", .arr [.str "Q1"])]),
             ("quiz_20250101_120001",
              Json.obj [("quiz_id", .str "quiz_20250101_120001"),
                        ("questions", .arr [.str "Q2"])])] :
            List (String × Json)) k
        = getA ([("quiz_20250101_120000",
              Json.obj [("quiz_id", .str "quiz_20250101_120000"),
                        ("questions", .arr [.str "Q1"])])] : List (String × Json)) k :=
  c7_amended ⟨[], [], ["20250101_120000", "20250101_120001"]⟩
    (.obj [("questions", .arr [.str "Q1"])]) (.obj [("questions", .arr [.str "Q2"])])
    (.obj [("quiz_id", .str "quiz_20250101_120000"),
           ("path", .str "quiz_data/quiz_20250101_120000.json")])
    (.obj [("quiz_id", .str "quiz_20250101_120001"),
           ("path", .str "quiz_data/quiz_20250101_120001.json")])
    ⟨[("quiz_20250101_120000",
       Json.obj [("quiz_id", .str "quiz_20250101_120000"),
                 ("questions", .arr [.str "Q1"])])], [], ["20250101_120001"]⟩
    ⟨[("quiz_20250101_120000",
       Json.obj [("quiz_id", .str "quiz_20250101_120000"),
                 ("questions", .arr [.str "Q1"])]),
      ("quiz_20250101_120001",
       Json.obj [("quiz_id", .str "quiz_20250101_120001"),
                 ("questions", .arr [.str "Q2"])])], [], []⟩
    "quiz_20250101_120000" "quiz_20250101_120001"
    (by decide) (by decide) (by decide) (by decide) (by decide)

/-- C8: saving a payload that holds a questions list and loading the
returned identifier from the resulting store yields a record with exactly
that question list — same order, same fields. -/
theorem c8_round_trip (st : PyState) (kvs : List (String × Json)) (qs : Json)
    (h : getA kvs "questions" = some qs) :
    (save_quiz (.obj kvs) st).1 = .ok (.obj
        [("quiz_id", .str ("quiz_" ++ st.clock.headD clockFallback)),
         ("path", .str ("quiz_data/" ++ ("quiz_" ++ st.clock.headD clockFallback) ++ ".json"))]) ∧
    (load_quiz (.str ("quiz_" ++ st.clock.headD clockFallback)) (save_quiz (.obj kvs) st).2).1
      = .ok (.obj [("quiz_id", .str ("quiz_" ++ st.clock.headD clockFallback)),
                   ("questions", qs)]) := by
  have hkvs : kvs ≠ [] := by
    intro he
    subst he
    simp [getA] at h
  have htr : pyTruthy (.obj kvs) = true := by simp [pyTruthy, hkvs]
  have hin : pyIn "questions" (.obj kvs) = .ok true := by simp [pyIn, h]
  have hsub : pySubscriptStr (.obj kvs) "questions" = .ok qs := by
    simp [pySubscriptStr, h]
  have hsave : save_quiz (.obj kvs) st
      = (.ok (.obj
          [("quiz_id", .str ("quiz_" ++ st.clock.headD clockFallback)),
           ("path", .str ("quiz_data/" ++ ("quiz_" ++ st.clock.headD clockFallback) ++ ".json"))]),
         ⟨setKeyA st.store ("quiz_" ++ st.clock.headD clockFallback)
            (.obj [("quiz_id", .str ("quiz_" ++ st.clock.headD clockFallback)),
                   ("questions", qs)]),
          st.reports, st.clock.tail⟩) := by
    simp only [save_quiz]
    rw [if_neg (by simp [htr])]
    simp only [hin, hsub]
  constructor
  · rw [hsave]
  · rw [hsave]
    simp only [load_quiz, pyStrOf, getA_setKeyA_self]

/-- C8, witness at a concrete payload and clock. -/
theorem c8_round_trip_witness :
    getA ([("questions", Json.arr [Json.str "Q1"])] : List (String × Json)) "questions"
      = some (Json.arr [Json.str "Q1"]) ∧
    (save_quiz (.obj [("questions", .arr [.str "Q1"])])
        ⟨[], [], ["20250101_120000"]⟩).1
      = .ok (.obj [("quiz_id", .str "quiz_20250101_120000"),
                   ("path", .str "quiz_data/quiz_20250101_120000.json")]) ∧
    (load_quiz (.str "quiz_20250101_120000")
        (save_quiz (.obj [("questions", .arr [.str "Q1"])])
          ⟨[], [], ["20250101_120000"]⟩).2).1
      = .ok (.obj [("quiz_id", .str "quiz_20250101_120000"),
                   ("questions", .arr [.str "Q1"])]) :=
  ⟨by decide,
   (c8_round_trip ⟨[], [], ["20250101_120000"]⟩ [("questions", .arr [.str "Q1"])]
     (.arr [.str "Q1"]) (by decide)).1,
   (c8_round_trip ⟨[], [], ["20250101_120000"]⟩ [("questions", .arr [.str "Q1"])]
     (.arr [.str "Q1"]) (by decide)).2⟩

theorem updateContext_summary (n r : Json) (c c' : Ctx)
    (h : updateContext n r c = .ok c') :
    getA c' "summary" = getA c "summary" := by
  simp only [updateContext] at h
  repeat' split at h
  all_goals cases h
  all_goals first
    | rfl
    | exact getA_setKeyA_ne _ _ _ _ (by decide)

theorem processCall_ok_decompose (call : Json) (ctx : Ctx) (st : PyState)
    (m : Msg) (ctx₁ : Ctx) (st₁ : PyState)
    (h : processCall call ctx st = .ok (m, ctx₁, st₁)) :
    ∃ nm ag result,
      pyDictGet call "name" .null = .ok nm ∧
      pyDictGet call "arguments" (.obj []) = .ok ag ∧
      execute_tool nm ag st = (.ok result, st₁) ∧
      updateContext nm result ctx = .ok ctx₁ ∧
      m = obsMsg nm result := by
  simp only [processCall] at h
  split at h
  · cases h
  · rename_i nm hnm
    split at h
    · cases h
    · rename_i ag hag
      split at h
      · cases h
      · rename_i result st₂ hex
        split at h
        · cases h
        · rename_i ctx₂ hup
          injection h with h
          injection h with hm h
          injection h with hc hs
          subst hm
          subst hc
          subst hs
          exact ⟨nm, ag, result, hnm, hag, hex, hup, rfl⟩

theorem processCalls_ok_cons (c : Json) (cs : List Json) (ctx : Ctx) (st : PyState)
    (ms : List Msg) (ctx' : Ctx) (st' : PyState)
    (h : processCalls (c :: cs) ctx st = .ok (ms, ctx', st')) :
    ∃ m ctx₁ st₁ ms₁,
      processCall c ctx st = .ok (m, ctx₁, st₁) ∧
      processCalls cs ctx₁ st₁ = .ok (ms₁, ctx', st') ∧
      ms = m :: ms₁ := by
  simp only [processCalls] at h
  split at h
  · cases h
  · rename_i m ctx₁ st₁ hc
    split at h
    · cases h
    · rename_i ms₁ ctx₂ st₂ hcs
      injection h with h
      injection h with hm h
      injection h with hctx hst
      subst hm
      subst hctx
      subst hst
      exact ⟨m, ctx₁, st₁, ms₁, hc, hcs, rfl⟩

theorem processCalls_summary : ∀ (cs : List Json) (ctx : Ctx) (st : PyState)
    (ms : List Msg) (ctx' : Ctx) (st' : PyState),
    processCalls cs ctx st = .ok (ms, ctx', st') →
    getA ctx' "summary" = getA ctx "summary"
  | [], ctx, st, ms, ctx', st', h => by
      simp only [processCalls] at h
      injection h with h
      injection h with hm h
      injection h with hc hs
      subst hc
      rfl
  | c :: cs, ctx, st, ms, ctx', st', h => by
      obtain ⟨m, ctx₁, st₁, ms₁, hc, hcs, rfl⟩ :=
        processCalls_ok_cons c cs ctx st ms ctx' st' h
      obtain ⟨nm, ag, result, _, _, _, hup, _⟩ :=
        processCall_ok_decompose c ctx st m ctx₁ st₁ hc
      rw [processCalls_summary cs ctx₁ st₁ ms₁ ctx' st' hcs]
      exact updateContext_summary nm result ctx ctx₁ hup

theorem processCalls_length : ∀ (cs : List Json) (ctx : Ctx) (st : PyState)
    (ms : List Msg) (ctx' : Ctx) (st' : PyState),
    processCalls cs ctx st = .ok (ms, ctx', st') → ms.length = cs.length
  | [], ctx, st, ms, ctx', st', h => by
      simp only [processCalls] at h
      injection h with h
      injection h with hm h
      subst hm
      rfl
  | c :: cs, ctx, st, ms, ctx', st', h => by
      obtain ⟨m, ctx₁, st₁, ms₁, hc, hcs, rfl⟩ :=
        processCalls_ok_cons c cs ctx st ms ctx' st' h
      simp [processCalls_length cs ctx₁ st₁ ms₁ ctx' st' hcs]

theorem processCalls_seqExec : ∀ (cs : List Json) (ctx : Ctx) (st : PyState)
    (ms : List Msg) (ctx' : Ctx) (st' : PyState),
    processCalls cs ctx st = .ok (ms, ctx', st') →
    SeqExec cs ctx st ms ctx' st'
  | [], ctx, st, ms, ctx', st', h => by
      simp only [processCalls] at h
      injection h with h
      injection h with hm h
      injection h with hc hs
      subst hm
      subst hc
      subst hs
      exact SeqExec.nil ctx st
  | c :: cs, ctx, st, ms, ctx', st', h => by
      obtain ⟨m, ctx₁, st₁, ms₁, hc, hcs, rfl⟩ :=
        processCalls_ok_cons c cs ctx st ms ctx' st' h
      obtain ⟨nm, ag, result, hnm, hag, hex, hup, rfl⟩ :=
        processCall_ok_decompose c ctx st m ctx₁ st₁ hc
      exact SeqExec.cons c cs ctx st nm ag result ctx₁ st₁ ms₁ ctx' st'
        hnm hag hex hup (processCalls_seqExec cs ctx₁ st₁ ms₁ ctx' st' hcs)

theorem agentLoop_count_le (r : Nat → String) : ∀ (fuel k : Nat) (msgs : List Msg)
    (ctx : Ctx) (st : PyState), (agentLoop r fuel k msgs ctx st).2 ≤ k + fuel
  | 0, k, msgs, ctx, st => by simp [agentLoop]
  | fuel + 1, k, msgs, ctx, st => by
      simp only [agentLoop]
      cases hit : agentIterate (r k) msgs ctx st with
      | done ctx₁ msgs₁ => simp
      | failed e => simp
      | continued msgs₁ ctx₁ st₁ =>
          have h := agentLoop_count_le r fuel (k + 1) msgs₁ ctx₁ st₁
          show (agentLoop r fuel (k + 1) msgs₁ ctx₁ st₁).2 ≤ k + (fuel + 1)
          omega

theorem agentLoop_exhaust (r : Nat → String) : ∀ (fuel k : Nat) (msgs : List Msg)
    (ctx : Ctx) (st : PyState),
    (∀ i, k ≤ i → i < k + fuel → extract_functools (r i) ≠ none) →
    ∀ ctx' ms st', (agentLoop r fuel k msgs ctx st).1 = .ok (ctx', ms, st') →
    (agentLoop r fuel k msgs ctx st).2 = k + fuel ∧
      getA ctx' "summary" = getA ctx "summary"
  | 0, k, msgs, ctx, st => by
      intro _ ctx' ms st' hok
      simp only [agentLoop] at hok ⊢
      injection hok with hok
      injection hok with hc hok
      subst hc
      exact ⟨rfl, rfl⟩
  | fuel + 1, k, msgs, ctx, st => by
      intro hresp ctx' ms st' hok
      simp only [agentLoop] at hok ⊢
      cases hext : extract_functools (r k) with
      | none => exact absurd hext (hresp k (le_refl k) (by omega))
      | some calls =>
        cases hpc : processCalls calls ctx st with
        | error e =>
            have hit : agentIterate (r k) msgs ctx st = .failed e := by
              simp [agentIterate, hext, hpc]
            rw [hit] at hok
            cases hok
        | ok tri =>
            obtain ⟨obs, ctx₁, st₁⟩ := tri
            have hit : agentIterate (r k) msgs ctx st
                = .continued ((msgs ++ [⟨"assistant", r k⟩]) ++ obs) ctx₁ st₁ := by
              simp [agentIterate, hext, hpc]
            rw [hit] at hok ⊢
            have hresp₁ : ∀ i, k + 1 ≤ i → i < (k + 1) + fuel →
                extract_functools (r i) ≠ none :=
              fun i h₁ h₂ => hresp i (by omega) (by omega)
            obtain ⟨hcount, hsum⟩ := agentLoop_exhaust r fuel (k + 1)
              ((msgs ++ [⟨"assistant", r k⟩]) ++ obs) ctx₁ st₁ hresp₁ ctx' ms st' hok
            constructor
            · show (agentLoop r fuel (k + 1)
                  ((msgs ++ [⟨"assistant", r k⟩]) ++ obs) ctx₁ st₁).2 = k + (fuel + 1)
              omega
            · rw [hsum]
              exact processCalls_summary calls ctx st obs ctx₁ st₁ hpc

/-- C5, claim as stated, refuted: a response stream that always requests
one well-formed call to a registered tool can make the loop raise an
uncaught KeyError after a single completion round trip, instead of
terminating at the iteration ceiling with a partial context outcome. -/
theorem c5_counterexample :
    extract_functools faultContent ≠ none ∧
    Agent.run (fun _ => faultContent) "task" [] emptySt
      = (.error (.keyError "total"), 1) ∧
    (1 : Nat) ≠ max_iterations := by
  refine ⟨by decide, by decide, by decide⟩

/-- C5, amended: the loop never makes more than max_iterations completion
round trips; and when every response requests at least one tool call and
no executed tool propagates an uncaught fault (the run returns normally),
it makes exactly max_iterations round trips and returns the accumulated
context with its summary key unchanged — distinguishable from the
DONE outcome, which records a summary. -/
theorem c5_amended (responses : Nat → String) (task : String) (ctx : Ctx)
    (st : PyState) :
    (Agent.run responses task ctx st).2 ≤ max_iterations ∧
    ((∀ i, i < max_iterations → extract_functools (responses i) ≠ none) →
      ∀ ctx' msgs st', (Agent.run responses task ctx st).1 = .ok (ctx', msgs, st') →
        (Agent.run responses task ctx st).2 = max_iterations ∧
        getA ctx' "summary" = getA ctx "summary") := by
  constructor
  · have h := agentLoop_count_le responses max_iterations 0 [⟨"user", task⟩] ctx st
    simpa [Agent.run] using h
  · intro hresp ctx' msgs st' hok
    have h := agentLoop_exhaust responses max_iterations 0 [⟨"user", task⟩] ctx st
      (fun i _ hi => hresp i (by omega)) ctx' msgs st' hok
    simpa [Agent.run] using h

/-- C5, witness for the amended theorem: a stream that always requests an
unknown tool call drives the loop through all six round trips with no
summary recorded. -/
theorem c5_amended_witness :
    (∀ i, i < max_iterations →
      extract_functools ((fun _ => unknownToolContent) i) ≠ none) ∧
    ((Agent.run (fun _ => unknownToolContent) "task" [] emptySt).2 = max_iterations ∧
      getA ([] : Ctx) "summary" = getA ([] : Ctx) "summary") :=
  ⟨by decide,
   (c5_amended (fun _ => unknownToolContent) "task" [] emptySt).2 (by decide)
     [] sixRoundMsgs emptySt (by decide)⟩

set_option maxRecDepth 8192 in
/-- C6, claim as stated, refuted: a response carrying a batch of two tool
calls whose first call raises an uncaught fault (the create_report
KeyError of C2) makes the loop iteration abort with that exception, so
the conversation gains zero observation turns for the batch instead of
one per call. -/
theorem c6_counterexample :
    extract_functools faultBatchContent = some faultBatchCalls ∧
    2 ≤ faultBatchCalls.length ∧
    processCalls faultBatchCalls [] emptySt = .error (.keyError "total") ∧
    agentIterate faultBatchContent [⟨"user", "t"⟩] [] emptySt
      = .failed (.keyError "total") := by
  refine ⟨by decide, by decide, by decide, by decide⟩

/-- C6, amended: for a response whose extracted batch holds two or more
calls, when every call in the batch executes without an uncaught fault
the loop iteration appends the assistant turn followed by exactly one
observation turn per call, the batch being executed sequentially in the
listed order (SeqExec) threading context and state left to right; a call
whose execution raises an uncaught fault instead aborts the iteration
with that exception, and no observation turn is appended. -/
theorem c6_batch_order (content : String) (msgs : List Msg) (ctx : Ctx)
    (st : PyState) (calls : List Json)
    (he : extract_functools content = some calls) (_hn : 2 ≤ calls.length) :
    (∀ obs ctx₁ st₁, processCalls calls ctx st = .ok (obs, ctx₁, st₁) →
      agentIterate content msgs ctx st
        = .continued (msgs ++ ⟨"assistant", content⟩ :: obs) ctx₁ st₁ ∧
      obs.length = calls.length ∧
      SeqExec calls ctx st obs ctx₁ st₁) ∧
    (∀ e, processCalls calls ctx st = .error e →
      agentIterate content msgs ctx st = .failed e) := by
  constructor
  · intro obs ctx₁ st₁ hp
    refine ⟨?_, processCalls_length calls ctx st obs ctx₁ st₁ hp,
      processCalls_seqExec calls ctx st obs ctx₁ st₁ hp⟩
    simp only [agentIterate, he, hp]
    simp
  · intro e hp
    simp only [agentIterate, he, hp]

/-- C6, witness for the amended theorem: a concrete fault-free two-call
batch gains one observation turn per call, in order. -/
theorem c6_batch_order_witness :
    extract_functools twoCallContent = some twoCalls ∧
    processCalls twoCalls [] emptySt = .ok (twoCallObs, [], emptySt) ∧
    (agentIterate twoCallContent [⟨"user", "t"⟩] [] emptySt
        = .continued (⟨"user", "t"⟩ :: ⟨"assistant", twoCallContent⟩ :: twoCallObs)
            [] emptySt ∧
      twoCallObs.length = twoCalls.length ∧
      SeqExec twoCalls [] emptySt twoCallObs [] emptySt) :=
  ⟨by decide, by decide,
   (c6_batch_order twoCallContent [⟨"user", "t"⟩] [] emptySt twoCalls
     (by decide) (by decide)).1 twoCallObs [] emptySt (by decide)⟩

theorem string_nonempty_data (s : String) (hs : s ≠ "") :
    ∃ c₀ ct, s.data = c₀ :: ct := by
  cases s with | mk d =>
  cases d with
  | nil => exact absurd rfl hs
  | cons a t => exact ⟨a, t, rfl⟩

theorem gradeStep_eq (rs : List Json) (hr : rs.all isGoodResp = true) (i : Nat)
    (q : Json) (hq : isGoodQ q = true) :
    gradeStep (.arr rs) i q = .ok (userAnsAt rs i, correctAt q, matchAt rs i q) := by
  cases q with
  | obj kv =>
    cases hca : getA kv "correct_answer" with
    | none => simp [isGoodQ, hca] at hq
    | some v =>
      cases v with
      | str c =>
        have hc : c ≠ "" := by simpa [isGoodQ, hca] using hq
        obtain ⟨c₀, ct, hcc⟩ := string_nonempty_data c hc
        have hsub : pySubscriptStr (.obj kv) "correct_answer" = .ok (.str c) := by
          simp [pySubscriptStr, hca]
        have hidx : pyGetIdx (.str c) 0 = .ok (.str (String.singleton c₀)) := by
          simp [pyGetIdx, hcc]
        have hcl : c.toList.get? 0 = some c₀ := by simp [hcc]
        have hcor : correctAt (.obj kv) = .str (String.singleton c₀) := by
          simp [correctAt, Json.getKey, hca, firstCharStr, hcc]
        by_cases hi : i < rs.length
        · obtain ⟨r, hget⟩ : ∃ r, rs.get? i = some r :=
            ⟨rs.get ⟨i, hi⟩, List.get?_eq_get hi⟩
          have hmem : r ∈ rs := List.get?_mem hget
          have hgood : isGoodResp r = true := by
            exact List.all_eq_true.mp hr r hmem
          cases r with
          | str s =>
            have hs : s ≠ "" := by simpa [isGoodResp] using hgood
            obtain ⟨s₀, stail, hss⟩ := string_nonempty_data s hs
            have hup : (pyUpper s).toList.head? = some (Char.toUpper s₀) := by
              simp [pyUpper, hss]
            have hgetE : rs[i]? = some (Json.str s) := by
              rw [← List.get?_eq_getElem?]
              exact hget
            have huser : userAnsAt rs i = String.singleton (Char.toUpper s₀) := by
              simp [userAnsAt, if_pos hi, List.getD, hgetE, strOfJ, firstCharStr,
                pyUpper, hss]
            simp only [gradeStep, pyLen]
            rw [if_pos hi]
            simp only [pyGetIdx, hget, hup, hsub, hcl, huser, hcor, matchAt]
          | null => simp [isGoodResp] at hgood
          | bool b => simp [isGoodResp] at hgood
          | num n => simp [isGoodResp] at hgood
          | arr xs => simp [isGoodResp] at hgood
          | obj kvs => simp [isGoodResp] at hgood
        · have huser : userAnsAt rs i = "X" := by simp [userAnsAt, hi]
          simp only [gradeStep, pyLen]
          rw [if_neg hi]
          simp only [hsub, hidx, huser, hcor, matchAt]
      | null => simp [isGoodQ, hca] at hq
      | bool b => simp [isGoodQ, hca] at hq
      | num n => simp [isGoodQ, hca] at hq
      | arr xs => simp [isGoodQ, hca] at hq
      | obj kvs => simp [isGoodQ, hca] at hq
  | null => simp [isGoodQ] at hq
  | bool b => simp [isGoodQ] at hq
  | num n => simp [isGoodQ] at hq
  | str s => simp [isGoodQ] at hq
  | arr xs => simp [isGoodQ] at hq

theorem gradeFold_eq (rs : List Json) (hr : rs.all isGoodResp = true) :
    ∀ (qs : List Json) (i : Nat), qs.all isGoodQ = true →
    gradeFold (.arr rs) i qs = .ok (scoreF rs i qs, detF rs i qs)
  | [], i, _ => rfl
  | q :: qs, i, hq => by
      have hq₁ : isGoodQ q = true := by
        simp only [List.all_cons, Bool.and_eq_true] at hq
        exact hq.1
      have hq₂ : qs.all isGoodQ = true := by
        simp only [List.all_cons, Bool.and_eq_true] at hq
        exact hq.2
      simp only [gradeFold, gradeStep_eq rs hr i q hq₁, gradeFold_eq rs hr qs (i + 1) hq₂,
        scoreF, detF, detailAt]

theorem detF_length (rs : List Json) : ∀ (qs : List Json) (i : Nat),
    (detF rs i qs).length = qs.length
  | [], _ => rfl
  | q :: qs, i => by simp [detF, detF_length rs qs (i + 1)]

theorem detF_getD (rs : List Json) : ∀ (qs : List Json) (i j : Nat),
    j < qs.length →
    (detF rs i qs).getD j .null = detailAt rs (i + j) (qs.getD j .null)
  | [], i, j, h => by simp at h
  | q :: qs, i, 0, h => by simp [detF]
  | q :: qs, i, j + 1, h => by
      have h' : j < qs.length := by simpa using h
      have ih := detF_getD rs qs (i + 1) j h'
      simp only [detF, List.getD_cons_succ]
      rw [ih]
      congr 1
      omega

theorem userAnsAt_beyond (rs : List Json) (j : Nat) (hj : rs.length ≤ j) :
    userAnsAt rs j = "X" := by
  simp [userAnsAt, Nat.not_lt.mpr hj]

theorem getKey_detailAt_user (rs : List Json) (i : Nat) (q : Json) :
    Json.getKey (detailAt rs i q) "user" = some (.str (userAnsAt rs i)) := rfl

theorem getKey_detailAt_result (rs : List Json) (i : Nat) (q : Json) :
    Json.getKey (detailAt rs i q) "result"
      = some (.str (if matchAt rs i q then "✓" else "✗")) := rfl

theorem correctAt_of_good (q : Json) (hq : isGoodQ q = true) :
    ∃ x, correctAt q = .str x := by
  cases q with
  | obj kv =>
    cases hca : getA kv "correct_answer" with
    | none => simp [isGoodQ, hca] at hq
    | some v =>
      cases v with
      | str c => exact ⟨firstCharStr c, by simp [correctAt, Json.getKey, hca]⟩
      | null => simp [isGoodQ, hca] at hq
      | bool b => simp [isGoodQ, hca] at hq
      | num n => simp [isGoodQ, hca] at hq
      | arr xs => simp [isGoodQ, hca] at hq
      | obj kvs => simp [isGoodQ, hca] at hq
  | null => simp [isGoodQ] at hq
  | bool b => simp [isGoodQ] at hq
  | num n => simp [isGoodQ] at hq
  | str s => simp [isGoodQ] at hq
  | arr xs => simp [isGoodQ] at hq

theorem matchAt_beyond (rs : List Json) (j : Nat) (q : Json)
    (hj : rs.length ≤ j) (hq : isGoodQ q = true)
    (hx : correctAt q ≠ .str "X") : matchAt rs j q = false := by
  obtain ⟨x, hcx⟩ := correctAt_of_good q hq
  have hxe : x ≠ "X" := by
    intro he
    exact hx (by rw [hcx, he])
  have hbs : Json.beq (.str "X") (.str x) = ("X" == x) := rfl
  simp only [matchAt, userAnsAt_beyond rs j hj, hcx, hbs]
  exact beq_eq_false_iff_ne.mpr (Ne.symm hxe)

theorem scoreF_all_false (rs : List Json) : ∀ (qs : List Json) (i : Nat),
    (∀ j q, qs.get? j = some q → matchAt rs (i + j) q = false) →
    scoreF rs i qs = 0
  | [], _, _ => rfl
  | q :: qs, i, h => by
      have h₀ : matchAt rs i q = false := by
        have := h 0 q rfl
        simpa using this
      have hrest : ∀ j q₁, qs.get? j = some q₁ → matchAt rs ((i + 1) + j) q₁ = false := by
        intro j q₁ hg
        have := h (j + 1) q₁ (by simpa using hg)
        have he : i + (j + 1) = (i + 1) + j := by omega
        rw [he] at this
        exact this
      simp [scoreF, h₀, scoreF_all_false rs qs (i + 1) hrest]

theorem scoreF_take (rs : List Json) : ∀ (qs : List Json) (i : Nat),
    (∀ j q, qs.get? j = some q → rs.length ≤ i + j → matchAt rs (i + j) q = false) →
    scoreF rs i qs = scoreF rs i (qs.take (rs.length - i))
  | [], i, _ => by simp [scoreF]
  | q :: qs, i, h => by
      by_cases hi : i < rs.length
      · have he : rs.length - i = (rs.length - (i + 1)) + 1 := by omega
        rw [he]
        simp only [List.take_succ_cons, scoreF]
        have hrest : ∀ j q₁, qs.get? j = some q₁ → rs.length ≤ (i + 1) + j →
            matchAt rs ((i + 1) + j) q₁ = false := by
          intro j q₁ hg hle
          have hle' : rs.length ≤ i + (j + 1) := by omega
          have := h (j + 1) q₁ (by simpa using hg) hle'
          have heq : i + (j + 1) = (i + 1) + j := by omega
          rw [heq] at this
          exact this
        rw [scoreF_take rs qs (i + 1) hrest]
      · have hle : rs.length ≤ i := Nat.not_lt.mp hi
        have he : rs.length - i = 0 := by omega
        rw [he]
        simp only [List.take_zero, scoreF]
        have h₀ : matchAt rs i q = false := by
          have := h 0 q rfl (by omega)
          simpa using this
        rw [h₀]
        simp only [if_neg (by simp : ¬ (false = true))]
        apply scoreF_all_false rs qs (i + 1)
        intro j q₁ hg
        have hj := h (j + 1) q₁ (by simpa using hg) (by omega)
        have heq : i + (j + 1) = (i + 1) + j := by omega
        rw [heq] at hj
        exact hj

theorem grade_responses_characterize (st : PyState) (qid : String)
    (qkvs : List (String × Json)) (qs rs : List Json)
    (hstore : getA st.store qid = some (.obj qkvs))
    (herr : getA qkvs "error" = none)
    (hqs : getA qkvs "questions" = some (.arr qs))
    (hr : rs.all isGoodResp = true)
    (hq : qs.all isGoodQ = true) :
    grade_responses (.str qid) (.arr rs) st
      = (.ok (.obj [("quiz_id", .str qid), ("score", .num (Int.ofNat (scoreF rs 0 qs))),
                    ("total", .num (Int.ofNat qs.length)),
                    ("details", .arr (detF rs 0 qs))]), st) := by
  have h1 : load_quiz (.str qid) st = (.ok (.obj qkvs), st) := by
    simp [load_quiz, pyStrOf, hstore]
  have h2 : pyIn "error" (.obj qkvs) = .ok false := by
    simp [pyIn, herr]
  have h3 : pyDictGet (.obj qkvs) "questions" (.arr []) = .ok (.arr qs) := by
    simp [pyDictGet, hqs]
  simp only [grade_responses, h1, h2, h3, pyIterList,
    gradeFold_eq rs hr qs 0 hq]

theorem getD_of_lt (qs : List Json) (j : Nat) (hlt : j < qs.length) :
    qs.get? j = some (qs.getD j .null) ∧ qs.getD j .null ∈ qs := by
  have hg : qs[j]? = some qs[j] := List.getElem?_eq_getElem hlt
  have hgd : qs.getD j .null = qs[j] := by
    simp [List.getD, hg]
  constructor
  · rw [List.get?_eq_getElem?, hg, hgd]
  · rw [hgd]
    exact List.getElem_mem hlt

/-- C10: for a stored quiz whose questions are well-formed and a strictly
shorter list of non-empty string responses, grade_responses still emits
one detail entry per question with total equal to the question count;
every question at an index past the response list is graded with the
synthetic user answer X and marked incorrect whenever its correct answer
does not begin with X; and when no such out-of-range correct answer
begins with X, the score counts only the matches among the supplied
responses (it equals the score over the covered prefix). -/
theorem c10_short_responses (st : PyState) (qid : String)
    (qkvs : List (String × Json)) (qs rs : List Json)
    (hstore : getA st.store qid = some (.obj qkvs))
    (herr : getA qkvs "error" = none)
    (hqs : getA qkvs "questions" = some (.arr qs))
    (hr : rs.all isGoodResp = true)
    (hq : qs.all isGoodQ = true)
    (hlen : rs.length < qs.length) :
    grade_responses (.str qid) (.arr rs) st
      = (.ok (.obj [("quiz_id", .str qid), ("score", .num (Int.ofNat (scoreF rs 0 qs))),
                    ("total", .num (Int.ofNat qs.length)),
                    ("details", .arr (detF rs 0 qs))]), st) ∧
    (detF rs 0 qs).length = qs.length ∧
    (∀ j, rs.length ≤ j → j < qs.length →
      Json.getKey ((detF rs 0 qs).getD j .null) "user" = some (.str "X") ∧
      (correctAt (qs.getD j .null) ≠ .str "X" →
        Json.getKey ((detF rs 0 qs).getD j .null) "result" = some (.str "✗"))) ∧
    ((∀ j, rs.length ≤ j → j < qs.length → correctAt (qs.getD j .null) ≠ .str "X") →
      scoreF rs 0 qs = scoreF rs 0 (qs.take rs.length)) := by
  refine ⟨grade_responses_characterize st qid qkvs qs rs hstore herr hqs hr hq,
    detF_length rs qs 0, ?_, ?_⟩
  · intro j hj hlt
    obtain ⟨hget, hmem⟩ := getD_of_lt qs j hlt
    have hgoodq : isGoodQ (qs.getD j .null) = true :=
      List.all_eq_true.mp hq _ hmem
    have hdet := detF_getD rs qs 0 j hlt
    rw [Nat.zero_add] at hdet
    constructor
    · rw [hdet, getKey_detailAt_user, userAnsAt_beyond rs j hj]
    · intro hx
      rw [hdet, getKey_detailAt_result, matchAt_beyond rs j (qs.getD j .null) hj hgoodq hx]
      simp
  · intro H
    have hta : rs.length - 0 = rs.length := by omega
    have := scoreF_take rs qs 0 ?_
    · rw [hta] at this
      exact this
    · intro j q hg hle
      rw [Nat.zero_add] at hle ⊢
      have hlt : j < qs.length := by
        have := List.get?_eq_some.mp hg
        exact this.1
      obtain ⟨hget, hmem⟩ := getD_of_lt qs j hlt
      have hqd : qs.getD j .null = q := by
        rw [hget] at hg
        exact Option.some.inj hg
      have hgoodq : isGoodQ q = true := by
        rw [← hqd]
        exact List.all_eq_true.mp hq _ hmem
      have hx : correctAt q ≠ .str "X" := by
        rw [← hqd]
        exact H j hle hlt
      exact matchAt_beyond rs j q hle hgoodq hx

/-- C10, witness at a concrete two-question quiz and one response. -/
theorem c10_short_responses_witness :
    getA ([("qz", Json.obj
        [("quiz_id", .str "qz"),
         ("questions", .arr
           [.obj [("id", Json.num 1), ("correct_answer", .str "A")],
            .obj [("id", Json.num 2), ("correct_answer", .str "B")]])])] :
        List (String × Json)) "qz"
      = some (Json.obj
        [("quiz_id", .str "qz"),
         ("questions", .arr
           [.obj [("id", Json.num 1), ("correct_answer", .str "A")],
            .obj [("id", Json.num 2), ("correct_answer", .str "B")]])]) ∧
    (grade_responses (.str "qz") (.arr [.str "a"])
        ⟨[("qz", Json.obj
            [("quiz_id", .str "qz"),
             ("questions", .arr
               [.obj [("id", Json.num 1), ("correct_answer", .str "A")],
                .obj [("id", Json.num 2), ("correct_answer", .str "B")]])])], [], []⟩
      = (.ok (.obj [("quiz_id", .str "qz"),
            ("score", .num (Int.ofNat (scoreF [.str "a"] 0
              [.obj [("id", Json.num 1), ("correct_answer", .str "A")],
               .obj [("id", Json.num 2), ("correct_answer", .str "B")]]))),
            ("total", .num (Int.ofNat 2)),
            ("details", .arr (detF [.str "a"] 0
              [.obj [("id", Json.num 1), ("correct_answer", .str "A")],
               .obj [("id", Json.num 2), ("correct_answer", .str "B")]]))]),
         ⟨[("qz", Json.obj
             [("quiz_id", .str "qz"),
              ("questions", .arr
                [.obj [("id", Json.num 1), ("correct_answer", .str "A")],
                 .obj [("id", Json.num 2), ("correct_answer", .str "B")]])])], [], []⟩) ∧
      (detF [.str "a"] 0
          [.obj [("id", Json.num 1), ("correct_answer", .str "A")],
           .obj [("id", Json.num 2), ("correct_answer", .str "B")]]).length = 2 ∧
      (∀ j, 1 ≤ j → j < 2 →
        Json.getKey ((detF [.str "a"] 0
            [.obj [("id", Json.num 1), ("correct_answer", .str "A")],
             .obj [("id", Json.num 2), ("correct_answer", .str "B")]]).getD j .null)
            "user" = some (.str "X") ∧
        (correctAt (([.obj [("id", Json.num 1), ("correct_answer", .str "A")],
              .obj [("id", Json.num 2), ("correct_answer", .str "B")]] :
              List Json).getD j .null) ≠ .str "X" →
          Json.getKey ((detF [.str "a"] 0
              [.obj [("id", Json.num 1), ("correct_answer", .str "A")],
               .obj [("id", Json.num 2), ("correct_answer", .str "B")]]).getD j .null)
              "result" = some (.str "✗"))) ∧
      ((∀ j, 1 ≤ j → j < 2 →
          correctAt (([.obj [("id", Json.num 1), ("correct_answer", .str "A")],
              .obj [("id", Json.num 2), ("correct_answer", .str "B")]] :
              List Json).getD j .null) ≠ .str "X") →
        scoreF [.str "a"] 0
            [.obj [("id", Json.num 1), ("correct_answer", .str "A")],
             .obj [("id", Json.num 2), ("correct_answer", .str "B")]]
          = scoreF [.str "a"] 0
              (([.obj [("id", Json.num 1), ("correct_answer", .str "A")],
                 .obj [("id", Json.num 2), ("correct_answer", .str "B")]] :
                List Json).take 1))) :=
  ⟨by decide,
   c10_short_responses
     ⟨[("qz", Json.obj
         [("quiz_id", .str "qz"),
          ("questions", .arr
            [.obj [("id", Json.num 1), ("correct_answer", .str "A")],
             .obj [("id", Json.num 2), ("correct_answer", .str "B")]])])], [], []⟩
     "qz"
     [("quiz_id", .str "qz"),
      ("questions", .arr
        [.obj [("id", Json.num 1), ("correct_answer", .str "A")],
         .obj [("id", Json.num 2), ("correct_answer", .str "B")]])]
     [.obj [("id", Json.num 1), ("correct_answer", .str "A")],
      .obj [("id", Json.num 2), ("correct_answer", .str "B")]]
     [.str "a"]
     (by decide) (by decide) (by decide) (by decide) (by decide) (by decide)⟩
